import Mathlib

/-!
Verification development for the six-stroke engine simulator
(src/six-stroke-engine.cpp and its header).

The C++ state is a collection of `double` fields updated by exact
rational arithmetic (additions, multiplications by decimal literals,
divisions, clamps via std::min/std::max).  We embed the state over `ℚ`.
The single irrational quantity, `pow(compression_ratio, 1.4 - 1)`
appearing in `calculate_thermal_efficiency`, is threaded through as an
abstract parameter `p04 : ℚ`; no claim depends on its numeric value.
The constant `PI` is a rational literal in the source and is embedded
verbatim.

Renamings forced by the checker (noted where they occur):
`gear_ratios` becomes `gearRs`, `get_current_ratio` becomes
`currentGearR`, `compression_ratio` becomes `compressionR`,
`rod_stroke_ratio` becomes `rodStrokeR`, `final_drive_ratio` becomes
`finalDriveR`, `calculate_rod_stroke_ratio` becomes
`calculate_rod_stroke`.
-/

namespace SixStroke

/-- The rational literal `PI` from six-stroke-engine.cpp line 16. -/
def PIq : ℚ := 3.14159265358979323846

/-- The `TransmissionMode` enum from the header. -/
inductive TransmissionMode where
  | Automatic
  | Manual
deriving DecidableEq

/-- The `Gearbox` class: a list of gear ratios and a 1-based current
gear index (`int` in C++, embedded as `ℤ`). -/
structure Gearbox where
  gearRs : List ℚ
  current_gear : ℤ
deriving DecidableEq

/-- `Gearbox::Gearbox()`: ratios {3.42, 2.14, 1.45, 1.0, 0.83}, gear 1. -/
def initGearbox : Gearbox := { gearRs := [3.42, 2.14, 1.45, 1, 0.83], current_gear := 1 }

/-- `Gearbox::get_current_ratio`: `gear_ratios[current_gear - 1]`.
C++ indexing out of range is undefined; we totalise with default 0,
which no claim exercises. -/
def Gearbox.currentGearR (g : Gearbox) : ℚ := g.gearRs.getD (g.current_gear - 1).toNat 0

/-- `Gearbox::shift_up` (lines 35-39). -/
def Gearbox.shift_up (g : Gearbox) : Gearbox :=
  if g.current_gear < (g.gearRs.length : ℤ) then { g with current_gear := g.current_gear + 1 } else g

/-- `Gearbox::shift_down` (lines 41-45). -/
def Gearbox.shift_down (g : Gearbox) : Gearbox :=
  if 1 < g.current_gear then { g with current_gear := g.current_gear - 1 } else g

/-- The `upgrades` map: it is created with exactly these eleven keys and
no key is ever added or removed, so we embed it as a record of eleven
booleans. -/
structure Upgrades where
  direct_injection : Bool
  turbocharger : Bool
  variable_valve_timing : Bool
  exhaust_gas_recirculation : Bool
  waste_heat_recovery : Bool
  smart_cooling : Bool
  advanced_materials : Bool
  enhanced_ecu : Bool
  cylinder_deactivation : Bool
  variable_compression : Bool
  ceramic_coating : Bool
deriving DecidableEq

/-- All eleven upgrade flags inactive, as set in the constructor. -/
def allOff : Upgrades :=
  { direct_injection := false, turbocharger := false, variable_valve_timing := false
    exhaust_gas_recirculation := false, waste_heat_recovery := false, smart_cooling := false
    advanced_materials := false, enhanced_ecu := false, cylinder_deactivation := false
    variable_compression := false, ceramic_coating := false }

/-- The `SixStrokeEngine` state.  The FPS clock (`frame_times`,
`last_frame_time`) reads the wall clock and is not part of any claim;
`current_fps` is kept as an inert field. -/
structure Engine where
  bore : ℚ
  stroke : ℚ
  compressionR : ℚ
  num_cylinders : ℤ
  rpm : ℚ
  max_rpm : ℚ
  idle_rpm : ℚ
  rod_length : ℚ
  deck_height : ℚ
  gear_shift_message : String
  gear_shift_message_timer : ℚ
  transmission_mode : TransmissionMode
  current_fps : ℚ
  acceleration : ℚ
  jerk : ℚ
  displacement : ℚ
  power_output : ℚ
  torque : ℚ
  fuel_consumption : ℚ
  thermal_efficiency : ℚ
  volumetric_efficiency : ℚ
  mean_effective_pressure : ℚ
  nox_emissions : ℚ
  co2_emissions : ℚ
  brake_specific_fuel_consumption : ℚ
  rodStrokeR : ℚ
  piston_speed : ℚ
  upgrades : Upgrades
  water_injection_active : Bool
  water_injection_amount : ℚ
  engine_temperature : ℚ
  optimal_temperature : ℚ
  gearbox : Gearbox
  vehicle_speed : ℚ
  wheel_radius : ℚ
  finalDriveR : ℚ
  vehicle_mass : ℚ
deriving DecidableEq

/-- `SixStrokeEngine::calculate_displacement` (lines 52-54). -/
def calculate_displacement (s : Engine) : Engine :=
  { s with displacement := (PIq / 4) * s.bore ^ 2 * s.stroke * (s.num_cylinders : ℚ) }

/-- `SixStrokeEngine::calculate_rod_stroke_ratio` (lines 56-58). -/
def calculate_rod_stroke (s : Engine) : Engine :=
  { s with rodStrokeR := s.rod_length / s.stroke }

/-- `SixStrokeEngine::calculate_piston_speed` (lines 60-62). -/
def calculate_piston_speed (s : Engine) : Engine :=
  { s with piston_speed := (2 * s.stroke * s.rpm) / 60 }

/-- `SixStrokeEngine::calculate_power` (lines 64-66). -/
def calculate_power (s : Engine) : ℚ :=
  (s.mean_effective_pressure * s.displacement * s.rpm) / (120 * 1000)

/-- `SixStrokeEngine::calculate_torque` (lines 68-70). -/
def calculate_torque (s : Engine) : ℚ :=
  (s.power_output * 1000 * 60) / (2 * PIq * s.rpm)

/-- `SixStrokeEngine::calculate_thermal_efficiency` (lines 72-74):
`1 - 1 / pow(compression_ratio, 1.4 - 1)`.  The parameter `p04` stands
for the library value `pow(compression_ratio, 0.4)`, irrational at the
engine's fixed compression ratio 11.0 and hence abstracted. -/
def calculate_thermal_efficiency (p04 : ℚ) : ℚ := 1 - 1 / p04

/-- Upgrade effect `advanced_materials` (lines 189-191). -/
def stepAdv (s : Engine) : Engine :=
  if s.upgrades.advanced_materials then { s with power_output := s.power_output * 1.05 } else s

/-- Upgrade effect `ceramic_coating` (lines 203-206). -/
def stepCeramic (s : Engine) : Engine :=
  if s.upgrades.ceramic_coating then
    { s with thermal_efficiency := s.thermal_efficiency * 1.03
             engine_temperature := s.engine_temperature - 5 }
  else s

/-- Upgrade effect `cylinder_deactivation` (lines 196-198). -/
def stepCylDeact (s : Engine) : Engine :=
  if s.upgrades.cylinder_deactivation then { s with fuel_consumption := s.fuel_consumption * 0.92 } else s

/-- Upgrade effect `direct_injection` (lines 168-171). -/
def stepDirectInj (s : Engine) : Engine :=
  if s.upgrades.direct_injection then
    { s with fuel_consumption := s.fuel_consumption * 0.9
             thermal_efficiency := s.thermal_efficiency * 1.05 }
  else s

/-- Upgrade effect `enhanced_ecu` (lines 192-195). -/
def stepEcu (s : Engine) : Engine :=
  if s.upgrades.enhanced_ecu then
    { s with fuel_consumption := s.fuel_consumption * 0.95
             power_output := s.power_output * 1.05 }
  else s

/-- Upgrade effect `exhaust_gas_recirculation` (lines 180-182). -/
def stepEgr (s : Engine) : Engine :=
  if s.upgrades.exhaust_gas_recirculation then { s with nox_emissions := s.nox_emissions * 0.7 } else s

/-- Upgrade effect `smart_cooling` (lines 186-188). -/
def stepSmart (s : Engine) : Engine :=
  if s.upgrades.smart_cooling then { s with thermal_efficiency := s.thermal_efficiency * 1.02 } else s

/-- Upgrade effect `turbocharger` (lines 172-175). -/
def stepTurbo (s : Engine) : Engine :=
  if s.upgrades.turbocharger then
    { s with power_output := s.power_output * 1.2
             volumetric_efficiency := s.volumetric_efficiency * 1.15 }
  else s

/-- Upgrade effect `variable_compression` (lines 199-202). -/
def stepVarComp (s : Engine) : Engine :=
  if s.upgrades.variable_compression then
    { s with thermal_efficiency := s.thermal_efficiency * 1.08
             fuel_consumption := s.fuel_consumption * 0.93 }
  else s

/-- Upgrade effect `variable_valve_timing` (lines 176-179). -/
def stepVvt (s : Engine) : Engine :=
  if s.upgrades.variable_valve_timing then
    { s with volumetric_efficiency := s.volumetric_efficiency * 1.1
             fuel_consumption := s.fuel_consumption * 0.95 }
  else s

/-- Upgrade effect `waste_heat_recovery` (lines 183-185). -/
def stepWhr (s : Engine) : Engine :=
  if s.upgrades.waste_heat_recovery then { s with thermal_efficiency := s.thermal_efficiency * 1.05 } else s

/-- The effects loop in `update_performance` (lines 84-88): every active
upgrade's closure runs, in the `std::map` iteration order, i.e. the
lexicographic order of the eleven key strings. -/
def applyEffects (s : Engine) : Engine :=
  stepWhr (stepVvt (stepVarComp (stepTurbo (stepSmart (stepEgr (stepEcu
    (stepDirectInj (stepCylDeact (stepCeramic (stepAdv s))))))))))

/-- Line 80: `power_output = calculate_power()`. -/
def setPower (s : Engine) : Engine := { s with power_output := calculate_power s }

/-- Line 81: `torque = calculate_torque()` (reads the power just set). -/
def setTorque (s : Engine) : Engine := { s with torque := calculate_torque s }

/-- Line 82: `thermal_efficiency = calculate_thermal_efficiency()`. -/
def setThermal (p04 : ℚ) (s : Engine) : Engine :=
  { s with thermal_efficiency := calculate_thermal_efficiency p04 }

/-- Line 91: `fuel_consumption = (power_output * 3600) / (43000 * thermal_efficiency)`. -/
def setFuel (s : Engine) : Engine :=
  { s with fuel_consumption := (s.power_output * 3600) / (43000 * s.thermal_efficiency) }

/-- Line 93: `brake_specific_fuel_consumption = (fuel_consumption * 3600) / power_output`. -/
def setBsfc (s : Engine) : Engine :=
  { s with brake_specific_fuel_consumption := (s.fuel_consumption * 3600) / s.power_output }

/-- Line 94: `co2_emissions = brake_specific_fuel_consumption * 3.2`. -/
def setCo2 (s : Engine) : Engine :=
  { s with co2_emissions := s.brake_specific_fuel_consumption * 3.2 }

/-- Line 97: `nox_emissions = 0.01 * power_output * (1 + (engine_temperature - 90) / 100)`. -/
def setNox (s : Engine) : Engine :=
  { s with nox_emissions := 0.01 * s.power_output * (1 + (s.engine_temperature - 90) / 100) }

/-- Lines 99-102: the water-injection adjustment. -/
def applyWater (s : Engine) : Engine :=
  if s.water_injection_active then
    { s with thermal_efficiency := s.thermal_efficiency * 1.1
             nox_emissions := s.nox_emissions * 0.8 }
  else s

/-- Lines 104-107: the temperature-deviation adjustment. -/
def applyTempAdj (s : Engine) : Engine :=
  if |s.engine_temperature - s.optimal_temperature| > 10 then
    { s with thermal_efficiency :=
        s.thermal_efficiency * (1 - 0.001 * |s.engine_temperature - s.optimal_temperature|) }
  else s

/-- Line 110: `volumetric_efficiency = std::min(std::max(volumetric_efficiency, 0.7), 1.0)`. -/
def clampVe (s : Engine) : Engine :=
  { s with volumetric_efficiency := min (max s.volumetric_efficiency 0.7) 1 }

/-- `SixStrokeEngine::update_performance` (lines 76-111), in the exact
statement order of the source. -/
def update_performance (p04 : ℚ) (s : Engine) : Engine :=
  clampVe (applyTempAdj (applyWater (setNox (setCo2 (setBsfc (setFuel
    (applyEffects (setThermal p04 (setTorque (setPower
      (calculate_piston_speed (calculate_rod_stroke (calculate_displacement s)))))))))))))

/-- `SixStrokeEngine::update_vehicle_speed` (lines 114-117). -/
def update_vehicle_speed (s : Engine) : Engine :=
  { s with vehicle_speed := ((s.rpm / (s.gearbox.currentGearR * s.finalDriveR)) * 2 * PIq * s.wheel_radius) / 60 }

/-- `SixStrokeEngine::toggle_water_injection` (lines 307-311): sets the
flag and recomputes performance. -/
def toggle_water_injection (p04 : ℚ) (activate : Bool) (s : Engine) : Engine :=
  update_performance p04 { s with water_injection_active := activate }

/-- The constructor's member-initialiser list (lines 119-151), with the
three uninitialised derived fields (`displacement`, `rod_stroke_ratio`,
`piston_speed`) taken as 0; they are recomputed before being read. -/
def baseEngine : Engine :=
  { bore := 0.086, stroke := 0.086, compressionR := 11, num_cylinders := 3
    rpm := 1000, max_rpm := 6000, idle_rpm := 800
    rod_length := 0.143, deck_height := 0.2
    gear_shift_message := "", gear_shift_message_timer := 0
    transmission_mode := TransmissionMode.Automatic
    current_fps := 0, acceleration := 0, jerk := 0
    displacement := 0, power_output := 0, torque := 0
    fuel_consumption := 0, thermal_efficiency := 0
    volumetric_efficiency := 0.9, mean_effective_pressure := 1000000
    nox_emissions := 0.5, co2_emissions := 0, brake_specific_fuel_consumption := 0
    rodStrokeR := 0, piston_speed := 0
    upgrades := allOff, water_injection_active := false, water_injection_amount := 0.005
    engine_temperature := 90, optimal_temperature := 90
    gearbox := initGearbox, vehicle_speed := 0
    wheel_radius := 0.3175, finalDriveR := 3.73, vehicle_mass := 1500 }

/-- `SixStrokeEngine::SixStrokeEngine()` (lines 119-210): field
initialisation followed by `update_performance` and
`update_vehicle_speed`.  The three `calculate_*` calls before the
upgrade tables are set are subsumed by `update_performance`, which
recomputes the same fields first. -/
def initialEngine (p04 : ℚ) : Engine :=
  update_vehicle_speed (update_performance p04 baseEngine)

/-- Outcome of `apply_upgrade`: the success path prints "<u> applied",
the failure path prints "Unknown upgrade: <u>" and is non-fatal. -/
inductive ApplyOutcome where
  | applied
  | unknownUpgrade
deriving DecidableEq

/-- The eleven keys of the `upgrades` map, fixed at construction
(lines 156-166) and never modified afterwards. -/
def knownUpgradeNames : List String :=
  ["direct_injection", "turbocharger", "variable_valve_timing",
   "exhaust_gas_recirculation", "waste_heat_recovery", "smart_cooling",
   "advanced_materials", "enhanced_ecu", "cylinder_deactivation",
   "variable_compression", "ceramic_coating"]

/-- `upgrades[upgrade] = true` for a known key. -/
def setFlagU (u : String) (g : Upgrades) : Upgrades :=
  if u = "direct_injection" then { g with direct_injection := true }
  else if u = "turbocharger" then { g with turbocharger := true }
  else if u = "variable_valve_timing" then { g with variable_valve_timing := true }
  else if u = "exhaust_gas_recirculation" then { g with exhaust_gas_recirculation := true }
  else if u = "waste_heat_recovery" then { g with waste_heat_recovery := true }
  else if u = "smart_cooling" then { g with smart_cooling := true }
  else if u = "advanced_materials" then { g with advanced_materials := true }
  else if u = "enhanced_ecu" then { g with enhanced_ecu := true }
  else if u = "cylinder_deactivation" then { g with cylinder_deactivation := true }
  else if u = "variable_compression" then { g with variable_compression := true }
  else if u = "ceramic_coating" then { g with ceramic_coating := true }
  else g

/-- `SixStrokeEngine::apply_upgrade` (lines 296-305): known key marks
the flag active and recomputes performance; unknown key only reports. -/
def apply_upgrade (p04 : ℚ) (u : String) (s : Engine) : Engine × ApplyOutcome :=
  if u ∈ knownUpgradeNames then
    (update_performance p04 { s with upgrades := setFlagU u s.upgrades }, ApplyOutcome.applied)
  else (s, ApplyOutcome.unknownUpgrade)

/-- Lines 221-236 of `update_dynamics`: jerk, acceleration, rpm and
temperature integration with their clamps.  `jr` is the draw of
`std::rand()`, so the jerk perturbation is `jr % 201 - 100`. -/
def integratePhase (dt : ℚ) (jr : ℕ) (s : Engine) : Engine :=
  let s := { s with jerk := s.jerk + (((jr % 201 : ℕ) : ℚ) - 100) * dt }
  let s := { s with jerk := max (-500) (min 500 s.jerk) }
  let s := { s with acceleration := s.acceleration + s.jerk * dt }
  let s := { s with acceleration := max (-50) (min 50 s.acceleration) }
  let s := { s with rpm := s.rpm + s.acceleration * dt * 10 }
  let s := { s with rpm := max s.idle_rpm (min s.max_rpm s.rpm) }
  let s := { s with engine_temperature :=
    s.engine_temperature + (if s.acceleration > 0 then (0.5 : ℚ) else -0.2) * dt }
  { s with engine_temperature := max 85 (min 110 s.engine_temperature) }

/-- Lines 239-241: with `wr` the draw of `std::rand()`, the water
injection flag toggles when `wr % 1000 < 5`. -/
def waterPhase (p04 : ℚ) (wr : ℕ) (s : Engine) : Engine :=
  if wr % 1000 < 5 then toggle_water_injection p04 (!s.water_injection_active) s else s

/-- Lines 245-254: the Automatic-mode rpm-threshold shifts. -/
def autoShiftPhase (s : Engine) : Engine :=
  if s.transmission_mode = TransmissionMode.Automatic then
    if s.rpm > 4000 ∧ s.gearbox.current_gear < 5 then
      { s with gearbox := s.gearbox.shift_up, rpm := s.rpm - 1500 }
    else if s.rpm < 2000 ∧ s.gearbox.current_gear > 1 then
      { s with gearbox := s.gearbox.shift_down, rpm := s.rpm + 1500 }
    else s
  else s

/-- Lines 262-272: the gear-shift notification bookkeeping. -/
def messagePhase (prevGear : ℤ) (dt : ℚ) (s : Engine) : Engine :=
  if s.gearbox.current_gear ≠ prevGear then
    { s with gear_shift_message := "Shifted to gear " ++ toString s.gearbox.current_gear
             gear_shift_message_timer := 3 }
  else if s.gear_shift_message_timer > 0 then
    if s.gear_shift_message_timer - dt ≤ 0 then
      { s with gear_shift_message_timer := s.gear_shift_message_timer - dt
               gear_shift_message := "" }
    else { s with gear_shift_message_timer := s.gear_shift_message_timer - dt }
  else s

/-- `SixStrokeEngine::update_dynamics` (lines 220-273): one tick.  The
two `std::rand()` draws are passed in as `jr` and `wr`. -/
def update_dynamics (p04 dt : ℚ) (jr wr : ℕ) (s : Engine) : Engine :=
  let s1 := integratePhase dt jr s
  let s2 := waterPhase p04 wr s1
  let prev := s2.gearbox.current_gear
  let s3 := autoShiftPhase s2
  let s4 := { s3 with rpm := max s3.idle_rpm (min s3.max_rpm s3.rpm) }
  let s5 := update_vehicle_speed (update_performance p04 s4)
  messagePhase prev dt s5

/-- Temperature increment used by `accelerate` (line 412). -/
def tempIncOf (t : ℚ) : ℚ := 0.5 * (1 - (t - 90) / 100)

/-- Temperature decrement used by `decelerate` (line 435). -/
def tempDecOf (t : ℚ) : ℚ := 0.2 * ((t - 90) / 100)

/-- `SixStrokeEngine::accelerate` (lines 405-426). -/
def accelerate (p04 : ℚ) (s : Engine) : Engine :=
  let s := { s with rpm := s.rpm + 100 }
  let s := if s.rpm > s.max_rpm then { s with rpm := s.max_rpm } else s
  let s := { s with engine_temperature := s.engine_temperature + max 0 (tempIncOf s.engine_temperature) }
  let s := if s.engine_temperature > 110 then { s with engine_temperature := 110 } else s
  let s := update_vehicle_speed (update_performance p04 s)
  if s.rpm > 4000 ∧ s.gearbox.current_gear < 5 then
    { s with gearbox := s.gearbox.shift_up, rpm := s.rpm - 1500 }
  else s

/-- `SixStrokeEngine::decelerate` (lines 428-449). -/
def decelerate (p04 : ℚ) (s : Engine) : Engine :=
  let s := { s with rpm := s.rpm - 100 }
  let s := if s.rpm < s.idle_rpm then { s with rpm := s.idle_rpm } else s
  let s := { s with engine_temperature := s.engine_temperature - max 0 (tempDecOf s.engine_temperature) }
  let s := if s.engine_temperature < 85 then { s with engine_temperature := 85 } else s
  let s := update_vehicle_speed (update_performance p04 s)
  if s.rpm < 2000 ∧ s.gearbox.current_gear > 1 then
    { s with gearbox := s.gearbox.shift_down, rpm := s.rpm + 1500 }
  else s

/-- `SixStrokeEngine::manual_upshift` (lines 471-486). -/
def manual_upshift (s : Engine) : Engine :=
  if s.transmission_mode = TransmissionMode.Manual then
    let prev := s.gearbox.current_gear
    let g := s.gearbox.shift_up
    if g.current_gear ≠ prev then
      { s with gearbox := g
               rpm := max (s.rpm - 1500) s.idle_rpm
               gear_shift_message := "Manually shifted up to gear " ++ toString g.current_gear
               gear_shift_message_timer := 3 }
    else
      { s with gearbox := g
               gear_shift_message := "Already in highest gear"
               gear_shift_message_timer := 3 }
  else s

/-- `SixStrokeEngine::manual_downshift` (lines 488-503). -/
def manual_downshift (s : Engine) : Engine :=
  if s.transmission_mode = TransmissionMode.Manual then
    let prev := s.gearbox.current_gear
    let g := s.gearbox.shift_down
    if g.current_gear ≠ prev then
      { s with gearbox := g
               rpm := min (s.rpm + 1500) s.max_rpm
               gear_shift_message := "Manually shifted down to gear " ++ toString g.current_gear
               gear_shift_message_timer := 3 }
    else
      { s with gearbox := g
               gear_shift_message := "Already in lowest gear"
               gear_shift_message_timer := 3 }
  else s

/-- `SixStrokeEngine::toggle_transmission_mode` (lines 212-218). -/
def toggle_transmission_mode (s : Engine) : Engine :=
  { s with transmission_mode :=
      if s.transmission_mode = TransmissionMode.Automatic then TransmissionMode.Manual
      else TransmissionMode.Automatic }

/-- One element of a run of the simulation core: a tick of
`update_dynamics` or a manual shift command (the operations the claims
quantify sequences over). -/
inductive SimCmd where
  | tick (dt : ℚ) (jr wr : ℕ)
  | upshift
  | downshift
deriving DecidableEq

/-- The elapsed-time argument of a tick is nonnegative; other commands
carry no time. -/
def SimCmd.dtNonneg : SimCmd → Prop
  | .tick dt _ _ => 0 ≤ dt
  | _ => True

/-- Run a list of commands left to right. -/
def runSim (p04 : ℚ) (s : Engine) : List SimCmd → Engine
  | [] => s
  | c :: cs =>
      let t := match c with
        | .tick dt jr wr => update_dynamics p04 dt jr wr s
        | .upshift => manual_upshift s
        | .downshift => manual_downshift s
      runSim p04 t cs

/-! ## Characterisation of `update_performance`

The effect loop touches only `power_output`, `thermal_efficiency`,
`volumetric_efficiency`, `fuel_consumption`, `nox_emissions` and
`engine_temperature`; the abbreviations below name the accumulated
multipliers.  The `fuel_consumption` and `nox_emissions` factors of the
loop are irrelevant to the final state because lines 91 and 97 of the
source overwrite both fields after the loop runs. -/

/-- Accumulated upgrade multiplier on `power_output`. -/
def pMult (u : Upgrades) : ℚ :=
  (if u.advanced_materials then (1.05 : ℚ) else 1) *
  (if u.enhanced_ecu then (1.05 : ℚ) else 1) *
  (if u.turbocharger then (1.2 : ℚ) else 1)

/-- Accumulated upgrade multiplier on `thermal_efficiency`. -/
def tMult (u : Upgrades) : ℚ :=
  (if u.ceramic_coating then (1.03 : ℚ) else 1) *
  (if u.direct_injection then (1.05 : ℚ) else 1) *
  (if u.smart_cooling then (1.02 : ℚ) else 1) *
  (if u.variable_compression then (1.08 : ℚ) else 1) *
  (if u.waste_heat_recovery then (1.05 : ℚ) else 1)

/-- Accumulated upgrade multiplier on `volumetric_efficiency`. -/
def vMult (u : Upgrades) : ℚ :=
  (if u.turbocharger then (1.15 : ℚ) else 1) *
  (if u.variable_valve_timing then (1.1 : ℚ) else 1)

/-- Water-injection factor on `thermal_efficiency` (line 100). -/
def wiThermal (b : Bool) : ℚ := if b then 1.1 else 1

/-- Water-injection factor on `nox_emissions` (line 101). -/
def wiNoxF (b : Bool) : ℚ := if b then 0.8 else 1

/-- Temperature drop caused by the `ceramic_coating` effect (line 205). -/
def ceraDrop (u : Upgrades) : ℚ := if u.ceramic_coating then 5 else 0

/-- Temperature-deviation factor on `thermal_efficiency` (lines 104-107). -/
def tempAdjF (t opt : ℚ) : ℚ := if |t - opt| > 10 then 1 - 0.001 * |t - opt| else 1

/-- The base power `mean_effective_pressure * displacement * rpm / 120000`
with the displacement freshly recomputed (lines 77 and 80). -/
def powerPre (s : Engine) : ℚ :=
  (s.mean_effective_pressure * ((PIq / 4) * s.bore ^ 2 * s.stroke * (s.num_cylinders : ℚ)) * s.rpm) /
    (120 * 1000)

/-- Thermal efficiency after the effect loop but before the
water-injection and temperature adjustments (the value line 91 reads). -/
def thermalPre (p04 : ℚ) (u : Upgrades) : ℚ := calculate_thermal_efficiency p04 * tMult u

/-- The final `fuel_consumption` (line 91, reading post-loop power and
pre-water thermal efficiency). -/
def fuelOf (p04 : ℚ) (s : Engine) : ℚ :=
  (powerPre s * pMult s.upgrades * 3600) / (43000 * thermalPre p04 s.upgrades)

/-- The final `brake_specific_fuel_consumption` (line 93). -/
def bsfcOf (p04 : ℚ) (s : Engine) : ℚ :=
  (fuelOf p04 s * 3600) / (powerPre s * pMult s.upgrades)

/-- The final `nox_emissions` (lines 97 and 101, reading the post-loop
power and the post-ceramic temperature). -/
def noxOf (p04 : ℚ) (s : Engine) : ℚ :=
  0.01 * (powerPre s * pMult s.upgrades) * (1 + (s.engine_temperature - ceraDrop s.upgrades - 90) / 100) *
    wiNoxF s.water_injection_active

/-- The tail of `update_dynamics` after the water phase: record the
previous gear, auto-shift, re-clamp rpm, recompute performance and
speed, update the notification (lines 243-272). -/
def tickTail (p04 dt : ℚ) (t : Engine) : Engine :=
  messagePhase t.gearbox.current_gear dt (update_vehicle_speed (update_performance p04
    { autoShiftPhase t with
      rpm := max (autoShiftPhase t).idle_rpm (min (autoShiftPhase t).max_rpm (autoShiftPhase t).rpm) }))

/-- Lines 405-417 of `accelerate`: rpm bump capped at max_rpm, then the
asymmetric warm-up capped at 110. -/
def accelMid (s : Engine) : Engine :=
  let a := { s with rpm := s.rpm + 100 }
  let b := if a.rpm > a.max_rpm then { a with rpm := a.max_rpm } else a
  let c := { b with engine_temperature :=
    b.engine_temperature + max 0 (tempIncOf b.engine_temperature) }
  if c.engine_temperature > 110 then { c with engine_temperature := 110 } else c

/-- Lines 428-440 of `decelerate`: rpm drop floored at idle_rpm, then
the cool-down floored at 85. -/
def decelMid (s : Engine) : Engine :=
  let a := { s with rpm := s.rpm - 100 }
  let b := if a.rpm < a.idle_rpm then { a with rpm := a.idle_rpm } else a
  let c := { b with engine_temperature :=
    b.engine_temperature - max 0 (tempDecOf b.engine_temperature) }
  if c.engine_temperature < 85 then { c with engine_temperature := 85 } else c

/-- Lines 422-425: the trailing auto-upshift of `accelerate`. -/
def shiftTailUp (s : Engine) : Engine :=
  if s.rpm > 4000 ∧ s.gearbox.current_gear < 5 then
    { s with gearbox := s.gearbox.shift_up, rpm := s.rpm - 1500 }
  else s

/-- Lines 445-448: the trailing auto-downshift of `decelerate`. -/
def shiftTailDown (s : Engine) : Engine :=
  if s.rpm < 2000 ∧ s.gearbox.current_gear > 1 then
    { s with gearbox := s.gearbox.shift_down, rpm := s.rpm + 1500 }
  else s

/-- The gearbox in its top gear. -/
def gbTop : Gearbox := { initGearbox with current_gear := 5 }

/-- A reachable state with the ceramic_coating upgrade active: the
constructor followed by `apply_upgrade("ceramic_coating")`, as the
startup configuration in main() can produce.  Its temperature is
90 - 5 = 85. -/
def c2state : Engine := (apply_upgrade 2 "ceramic_coating" (initialEngine 2)).1

/-- The scenario state of C4: a fresh engine whose rpm has been driven
to 4200 in Automatic mode, gear 1. -/
def c4state : Engine := { baseEngine with rpm := 4200 }

/-- The scenario state of C6: Manual mode, already in gear 5. -/
def c6state : Engine := { baseEngine with transmission_mode := TransmissionMode.Manual, gearbox := gbTop }

/-- A fresh engine with only the turbocharger flag raised and the
initial volumetric efficiency 0.9. -/
def c10state : Engine := { baseEngine with upgrades := { allOff with turbocharger := true } }

/-- The state `s` with the `advanced_materials` flag set to `b`. -/
def withAdv (b : Bool) (s : Engine) : Engine :=
  { s with upgrades := { s.upgrades with advanced_materials := b } }

/-- The state `s` with the `ceramic_coating` flag set to `b`. -/
def withCeramic (b : Bool) (s : Engine) : Engine :=
  { s with upgrades := { s.upgrades with ceramic_coating := b } }

/-- The state `s` with the `cylinder_deactivation` flag set to `b`. -/
def withCylDeact (b : Bool) (s : Engine) : Engine :=
  { s with upgrades := { s.upgrades with cylinder_deactivation := b } }

/-- The state `s` with the `direct_injection` flag set to `b`. -/
def withDirectInj (b : Bool) (s : Engine) : Engine :=
  { s with upgrades := { s.upgrades with direct_injection := b } }

/-- The state `s` with the `enhanced_ecu` flag set to `b`. -/
def withEcu (b : Bool) (s : Engine) : Engine :=
  { s with upgrades := { s.upgrades with enhanced_ecu := b } }

/-- The state `s` with the `exhaust_gas_recirculation` flag set to `b`. -/
def withEgr (b : Bool) (s : Engine) : Engine :=
  { s with upgrades := { s.upgrades with exhaust_gas_recirculation := b } }

/-- The state `s` with the `smart_cooling` flag set to `b`. -/
def withSmart (b : Bool) (s : Engine) : Engine :=
  { s with upgrades := { s.upgrades with smart_cooling := b } }

/-- The state `s` with the `turbocharger` flag set to `b`. -/
def withTurbo (b : Bool) (s : Engine) : Engine :=
  { s with upgrades := { s.upgrades with turbocharger := b } }

/-- The state `s` with the `variable_compression` flag set to `b`. -/
def withVarComp (b : Bool) (s : Engine) : Engine :=
  { s with upgrades := { s.upgrades with variable_compression := b } }

/-- The state `s` with the `variable_valve_timing` flag set to `b`. -/
def withVvt (b : Bool) (s : Engine) : Engine :=
  { s with upgrades := { s.upgrades with variable_valve_timing := b } }

/-- The state `s` with the `waste_heat_recovery` flag set to `b`. -/
def withWhr (b : Bool) (s : Engine) : Engine :=
  { s with upgrades := { s.upgrades with waste_heat_recovery := b } }

theorem stepAdv_eq (s : Engine) : stepAdv s =
    { s with power_output := s.power_output * (if s.upgrades.advanced_materials then 1.05 else 1) } := by
  unfold stepAdv; split <;> simp_all

theorem stepCeramic_eq (s : Engine) : stepCeramic s =
    { s with thermal_efficiency := s.thermal_efficiency * (if s.upgrades.ceramic_coating then 1.03 else 1)
             engine_temperature := s.engine_temperature - (if s.upgrades.ceramic_coating then 5 else 0) } := by
  unfold stepCeramic; split <;> simp_all

theorem stepCylDeact_eq (s : Engine) : stepCylDeact s =
    { s with fuel_consumption := s.fuel_consumption * (if s.upgrades.cylinder_deactivation then 0.92 else 1) } := by
  unfold stepCylDeact; split <;> simp_all

theorem stepDirectInj_eq (s : Engine) : stepDirectInj s =
    { s with fuel_consumption := s.fuel_consumption * (if s.upgrades.direct_injection then 0.9 else 1)
             thermal_efficiency := s.thermal_efficiency * (if s.upgrades.direct_injection then 1.05 else 1) } := by
  unfold stepDirectInj; split <;> simp_all

theorem stepEcu_eq (s : Engine) : stepEcu s =
    { s with fuel_consumption := s.fuel_consumption * (if s.upgrades.enhanced_ecu then 0.95 else 1)
             power_output := s.power_output * (if s.upgrades.enhanced_ecu then 1.05 else 1) } := by
  unfold stepEcu; split <;> simp_all

theorem stepEgr_eq (s : Engine) : stepEgr s =
    { s with nox_emissions := s.nox_emissions * (if s.upgrades.exhaust_gas_recirculation then 0.7 else 1) } := by
  unfold stepEgr; split <;> simp_all

theorem stepSmart_eq (s : Engine) : stepSmart s =
    { s with thermal_efficiency := s.thermal_efficiency * (if s.upgrades.smart_cooling then 1.02 else 1) } := by
  unfold stepSmart; split <;> simp_all

theorem stepTurbo_eq (s : Engine) : stepTurbo s =
    { s with power_output := s.power_output * (if s.upgrades.turbocharger then 1.2 else 1)
             volumetric_efficiency := s.volumetric_efficiency * (if s.upgrades.turbocharger then 1.15 else 1) } := by
  unfold stepTurbo; split <;> simp_all

theorem stepVarComp_eq (s : Engine) : stepVarComp s =
    { s with thermal_efficiency := s.thermal_efficiency * (if s.upgrades.variable_compression then 1.08 else 1)
             fuel_consumption := s.fuel_consumption * (if s.upgrades.variable_compression then 0.93 else 1) } := by
  unfold stepVarComp; split <;> simp_all

theorem stepVvt_eq (s : Engine) : stepVvt s =
    { s with volumetric_efficiency := s.volumetric_efficiency * (if s.upgrades.variable_valve_timing then 1.1 else 1)
             fuel_consumption := s.fuel_consumption * (if s.upgrades.variable_valve_timing then 0.95 else 1) } := by
  unfold stepVvt; split <;> simp_all

theorem stepWhr_eq (s : Engine) : stepWhr s =
    { s with thermal_efficiency := s.thermal_efficiency * (if s.upgrades.waste_heat_recovery then 1.05 else 1) } := by
  unfold stepWhr; split <;> simp_all

theorem applyWater_eq (s : Engine) : applyWater s =
    { s with thermal_efficiency := s.thermal_efficiency * (if s.water_injection_active then 1.1 else 1)
             nox_emissions := s.nox_emissions * (if s.water_injection_active then 0.8 else 1) } := by
  unfold applyWater; cases s; split <;> simp_all

theorem applyTempAdj_eq (s : Engine) : applyTempAdj s =
    { s with thermal_efficiency := s.thermal_efficiency *
        (if |s.engine_temperature - s.optimal_temperature| > 10 then
          1 - 0.001 * |s.engine_temperature - s.optimal_temperature| else 1) } := by
  unfold applyTempAdj; split <;> simp_all

/-- Closed form of one full `update_performance` pass. -/
theorem up_eq (p04 : ℚ) (s : Engine) : update_performance p04 s =
    { s with
      displacement := (PIq / 4) * s.bore ^ 2 * s.stroke * (s.num_cylinders : ℚ)
      rodStrokeR := s.rod_length / s.stroke
      piston_speed := (2 * s.stroke * s.rpm) / 60
      power_output := powerPre s * pMult s.upgrades
      torque := (powerPre s * 1000 * 60) / (2 * PIq * s.rpm)
      thermal_efficiency := thermalPre p04 s.upgrades * wiThermal s.water_injection_active *
        tempAdjF (s.engine_temperature - ceraDrop s.upgrades) s.optimal_temperature
      fuel_consumption := fuelOf p04 s
      brake_specific_fuel_consumption := bsfcOf p04 s
      co2_emissions := bsfcOf p04 s * 3.2
      nox_emissions := noxOf p04 s
      volumetric_efficiency := min (max (s.volumetric_efficiency * vMult s.upgrades) 0.7) 1
      engine_temperature := s.engine_temperature - ceraDrop s.upgrades } := by
  simp only [update_performance, clampVe, applyTempAdj_eq, applyWater_eq, setNox, setCo2, setBsfc,
    setFuel, applyEffects, stepWhr_eq, stepVvt_eq, stepVarComp_eq, stepTurbo_eq, stepSmart_eq,
    stepEgr_eq, stepEcu_eq, stepDirectInj_eq, stepCylDeact_eq, stepCeramic_eq, stepAdv_eq,
    setThermal, setTorque, setPower, calculate_piston_speed, calculate_rod_stroke,
    calculate_displacement, calculate_power, calculate_torque, calculate_thermal_efficiency]
  simp only [fuelOf, bsfcOf, noxOf, powerPre, pMult, thermalPre, tMult, vMult, wiThermal, wiNoxF,
    ceraDrop, tempAdjF, calculate_thermal_efficiency]
  simp only [Engine.mk.injEq]
  repeat' apply And.intro
  all_goals first
    | rfl
    | ring_nf

theorem up_rpm (p04 : ℚ) (s : Engine) : (update_performance p04 s).rpm = s.rpm := by rw [up_eq]

theorem up_idle (p04 : ℚ) (s : Engine) : (update_performance p04 s).idle_rpm = s.idle_rpm := by rw [up_eq]

theorem up_max (p04 : ℚ) (s : Engine) : (update_performance p04 s).max_rpm = s.max_rpm := by rw [up_eq]

theorem up_gearbox (p04 : ℚ) (s : Engine) : (update_performance p04 s).gearbox = s.gearbox := by rw [up_eq]

theorem up_mode (p04 : ℚ) (s : Engine) :
    (update_performance p04 s).transmission_mode = s.transmission_mode := by rw [up_eq]

theorem up_msg (p04 : ℚ) (s : Engine) :
    (update_performance p04 s).gear_shift_message = s.gear_shift_message := by rw [up_eq]

theorem up_timer (p04 : ℚ) (s : Engine) :
    (update_performance p04 s).gear_shift_message_timer = s.gear_shift_message_timer := by rw [up_eq]

theorem up_jerk (p04 : ℚ) (s : Engine) : (update_performance p04 s).jerk = s.jerk := by rw [up_eq]

theorem up_accel (p04 : ℚ) (s : Engine) :
    (update_performance p04 s).acceleration = s.acceleration := by rw [up_eq]

theorem up_upgrades (p04 : ℚ) (s : Engine) : (update_performance p04 s).upgrades = s.upgrades := by
  rw [up_eq]

theorem up_wi (p04 : ℚ) (s : Engine) :
    (update_performance p04 s).water_injection_active = s.water_injection_active := by rw [up_eq]

theorem up_opt (p04 : ℚ) (s : Engine) :
    (update_performance p04 s).optimal_temperature = s.optimal_temperature := by rw [up_eq]

theorem up_temp (p04 : ℚ) (s : Engine) :
    (update_performance p04 s).engine_temperature = s.engine_temperature - ceraDrop s.upgrades := by
  rw [up_eq]

theorem up_ve (p04 : ℚ) (s : Engine) :
    (update_performance p04 s).volumetric_efficiency =
      min (max (s.volumetric_efficiency * vMult s.upgrades) 0.7) 1 := by rw [up_eq]

theorem up_power (p04 : ℚ) (s : Engine) :
    (update_performance p04 s).power_output = powerPre s * pMult s.upgrades := by rw [up_eq]

theorem up_torque (p04 : ℚ) (s : Engine) :
    (update_performance p04 s).torque = (powerPre s * 1000 * 60) / (2 * PIq * s.rpm) := by rw [up_eq]

theorem up_thermal (p04 : ℚ) (s : Engine) :
    (update_performance p04 s).thermal_efficiency =
      thermalPre p04 s.upgrades * wiThermal s.water_injection_active *
        tempAdjF (s.engine_temperature - ceraDrop s.upgrades) s.optimal_temperature := by rw [up_eq]

theorem up_fuel (p04 : ℚ) (s : Engine) :
    (update_performance p04 s).fuel_consumption = fuelOf p04 s := by rw [up_eq]

theorem up_bsfc (p04 : ℚ) (s : Engine) :
    (update_performance p04 s).brake_specific_fuel_consumption = bsfcOf p04 s := by rw [up_eq]

theorem up_co2 (p04 : ℚ) (s : Engine) :
    (update_performance p04 s).co2_emissions = bsfcOf p04 s * 3.2 := by rw [up_eq]

theorem up_nox (p04 : ℚ) (s : Engine) :
    (update_performance p04 s).nox_emissions = noxOf p04 s := by rw [up_eq]

/-! ## Field bookkeeping for the tick phases -/

theorem ip_idle (dt : ℚ) (jr : ℕ) (s : Engine) :
    (integratePhase dt jr s).idle_rpm = s.idle_rpm := by simp [integratePhase]

theorem ip_max (dt : ℚ) (jr : ℕ) (s : Engine) :
    (integratePhase dt jr s).max_rpm = s.max_rpm := by simp [integratePhase]

theorem ip_gearbox (dt : ℚ) (jr : ℕ) (s : Engine) :
    (integratePhase dt jr s).gearbox = s.gearbox := by simp [integratePhase]

theorem ip_mode (dt : ℚ) (jr : ℕ) (s : Engine) :
    (integratePhase dt jr s).transmission_mode = s.transmission_mode := by simp [integratePhase]

theorem ip_upgrades (dt : ℚ) (jr : ℕ) (s : Engine) :
    (integratePhase dt jr s).upgrades = s.upgrades := by simp [integratePhase]

theorem ip_temp_bounds (dt : ℚ) (jr : ℕ) (s : Engine) :
    85 ≤ (integratePhase dt jr s).engine_temperature ∧
      (integratePhase dt jr s).engine_temperature ≤ 110 := by
  simp only [integratePhase]
  exact ⟨le_max_left _ _, max_le (by norm_num) (min_le_left _ _)⟩

theorem wp_idle (p04 : ℚ) (wr : ℕ) (s : Engine) :
    (waterPhase p04 wr s).idle_rpm = s.idle_rpm := by
  unfold waterPhase toggle_water_injection; split <;> simp [up_idle]

theorem wp_max (p04 : ℚ) (wr : ℕ) (s : Engine) :
    (waterPhase p04 wr s).max_rpm = s.max_rpm := by
  unfold waterPhase toggle_water_injection; split <;> simp [up_max]

theorem wp_rpm (p04 : ℚ) (wr : ℕ) (s : Engine) :
    (waterPhase p04 wr s).rpm = s.rpm := by
  unfold waterPhase toggle_water_injection; split <;> simp [up_rpm]

theorem wp_gearbox (p04 : ℚ) (wr : ℕ) (s : Engine) :
    (waterPhase p04 wr s).gearbox = s.gearbox := by
  unfold waterPhase toggle_water_injection; split <;> simp [up_gearbox]

theorem wp_mode (p04 : ℚ) (wr : ℕ) (s : Engine) :
    (waterPhase p04 wr s).transmission_mode = s.transmission_mode := by
  unfold waterPhase toggle_water_injection; split <;> simp [up_mode]

theorem wp_upgrades (p04 : ℚ) (wr : ℕ) (s : Engine) :
    (waterPhase p04 wr s).upgrades = s.upgrades := by
  unfold waterPhase toggle_water_injection; split <;> simp [up_upgrades]

theorem wp_temp (p04 : ℚ) (wr : ℕ) (s : Engine) :
    (waterPhase p04 wr s).engine_temperature =
      s.engine_temperature - (if wr % 1000 < 5 then ceraDrop s.upgrades else 0) := by
  unfold waterPhase toggle_water_injection; split <;> simp_all [up_temp]

theorem asp_idle (s : Engine) : (autoShiftPhase s).idle_rpm = s.idle_rpm := by
  unfold autoShiftPhase; (repeat' split) <;> rfl

theorem asp_max (s : Engine) : (autoShiftPhase s).max_rpm = s.max_rpm := by
  unfold autoShiftPhase; (repeat' split) <;> rfl

theorem asp_temp (s : Engine) : (autoShiftPhase s).engine_temperature = s.engine_temperature := by
  unfold autoShiftPhase; (repeat' split) <;> rfl

theorem asp_upgrades (s : Engine) : (autoShiftPhase s).upgrades = s.upgrades := by
  unfold autoShiftPhase; (repeat' split) <;> rfl

theorem asp_ve (s : Engine) :
    (autoShiftPhase s).volumetric_efficiency = s.volumetric_efficiency := by
  unfold autoShiftPhase; (repeat' split) <;> rfl

theorem asp_wi (s : Engine) :
    (autoShiftPhase s).water_injection_active = s.water_injection_active := by
  unfold autoShiftPhase; (repeat' split) <;> rfl

theorem asp_opt (s : Engine) :
    (autoShiftPhase s).optimal_temperature = s.optimal_temperature := by
  unfold autoShiftPhase; (repeat' split) <;> rfl

theorem mp_rpm (p : ℤ) (dt : ℚ) (s : Engine) : (messagePhase p dt s).rpm = s.rpm := by
  unfold messagePhase; (repeat' split) <;> rfl

theorem mp_idle (p : ℤ) (dt : ℚ) (s : Engine) : (messagePhase p dt s).idle_rpm = s.idle_rpm := by
  unfold messagePhase; (repeat' split) <;> rfl

theorem mp_max (p : ℤ) (dt : ℚ) (s : Engine) : (messagePhase p dt s).max_rpm = s.max_rpm := by
  unfold messagePhase; (repeat' split) <;> rfl

theorem mp_temp (p : ℤ) (dt : ℚ) (s : Engine) :
    (messagePhase p dt s).engine_temperature = s.engine_temperature := by
  unfold messagePhase; (repeat' split) <;> rfl

theorem mp_ve (p : ℤ) (dt : ℚ) (s : Engine) :
    (messagePhase p dt s).volumetric_efficiency = s.volumetric_efficiency := by
  unfold messagePhase; (repeat' split) <;> rfl

theorem mp_gearbox (p : ℤ) (dt : ℚ) (s : Engine) :
    (messagePhase p dt s).gearbox = s.gearbox := by
  unfold messagePhase; (repeat' split) <;> rfl

/-! ## Closed forms of the per-tick rpm, temperature and volumetric
efficiency -/

theorem ud_rpm_eq (p04 dt : ℚ) (jr wr : ℕ) (s : Engine) :
    (update_dynamics p04 dt jr wr s).rpm =
      max s.idle_rpm (min s.max_rpm (autoShiftPhase (waterPhase p04 wr (integratePhase dt jr s))).rpm) := by
  simp only [update_dynamics, mp_rpm, update_vehicle_speed, up_rpm, asp_idle, asp_max,
    wp_idle, wp_max, ip_idle, ip_max]

theorem ud_idle (p04 dt : ℚ) (jr wr : ℕ) (s : Engine) :
    (update_dynamics p04 dt jr wr s).idle_rpm = s.idle_rpm := by
  simp only [update_dynamics, mp_idle, update_vehicle_speed, up_idle, asp_idle, wp_idle, ip_idle]

theorem ud_max (p04 dt : ℚ) (jr wr : ℕ) (s : Engine) :
    (update_dynamics p04 dt jr wr s).max_rpm = s.max_rpm := by
  simp only [update_dynamics, mp_max, update_vehicle_speed, up_max, asp_max, wp_max, ip_max]

theorem ud_rpm_bounds (p04 dt : ℚ) (jr wr : ℕ) (s : Engine) (h : s.idle_rpm ≤ s.max_rpm) :
    (update_dynamics p04 dt jr wr s).idle_rpm ≤ (update_dynamics p04 dt jr wr s).rpm ∧
      (update_dynamics p04 dt jr wr s).rpm ≤ (update_dynamics p04 dt jr wr s).max_rpm := by
  rw [ud_idle, ud_max, ud_rpm_eq]
  exact ⟨le_max_left _ _, max_le h (min_le_left _ _)⟩

theorem ud_temp_eq (p04 dt : ℚ) (jr wr : ℕ) (s : Engine) :
    (update_dynamics p04 dt jr wr s).engine_temperature =
      (integratePhase dt jr s).engine_temperature -
        (if wr % 1000 < 5 then ceraDrop s.upgrades else 0) - ceraDrop s.upgrades := by
  simp only [update_dynamics, mp_temp, update_vehicle_speed, up_temp, up_upgrades, asp_temp,
    asp_upgrades, wp_temp, wp_upgrades, ip_upgrades]

theorem ud_ve_bounds (p04 dt : ℚ) (jr wr : ℕ) (s : Engine) :
    0.7 ≤ (update_dynamics p04 dt jr wr s).volumetric_efficiency ∧
      (update_dynamics p04 dt jr wr s).volumetric_efficiency ≤ 1 := by
  simp only [update_dynamics, mp_ve, update_vehicle_speed, up_ve]
  exact ⟨le_min (le_max_right _ _) (by norm_num), min_le_right _ _⟩

/-! ## Manual shifts and the global rpm invariant -/

theorem mu_idle (s : Engine) : (manual_upshift s).idle_rpm = s.idle_rpm := by
  unfold manual_upshift; (repeat' first | split | dsimp only) <;> rfl

theorem mu_max (s : Engine) : (manual_upshift s).max_rpm = s.max_rpm := by
  unfold manual_upshift; (repeat' first | split | dsimp only) <;> rfl

theorem md_idle (s : Engine) : (manual_downshift s).idle_rpm = s.idle_rpm := by
  unfold manual_downshift; (repeat' first | split | dsimp only) <;> rfl

theorem md_max (s : Engine) : (manual_downshift s).max_rpm = s.max_rpm := by
  unfold manual_downshift; (repeat' first | split | dsimp only) <;> rfl

theorem mu_rpm_cases (s : Engine) :
    (manual_upshift s).rpm = s.rpm ∨ (manual_upshift s).rpm = max (s.rpm - 1500) s.idle_rpm := by
  unfold manual_upshift; (repeat' first | split | dsimp only) <;>
    first | exact Or.inl rfl | exact Or.inr rfl

theorem md_rpm_cases (s : Engine) :
    (manual_downshift s).rpm = s.rpm ∨ (manual_downshift s).rpm = min (s.rpm + 1500) s.max_rpm := by
  unfold manual_downshift; (repeat' first | split | dsimp only) <;>
    first | exact Or.inl rfl | exact Or.inr rfl

theorem mu_rpm_bounds (s : Engine) (h1 : s.idle_rpm ≤ s.rpm) (h2 : s.rpm ≤ s.max_rpm) :
    (manual_upshift s).idle_rpm ≤ (manual_upshift s).rpm ∧
      (manual_upshift s).rpm ≤ (manual_upshift s).max_rpm := by
  rw [mu_idle, mu_max]
  rcases mu_rpm_cases s with h | h <;> rw [h]
  · exact ⟨h1, h2⟩
  · exact ⟨le_max_right _ _, max_le (le_trans (sub_le_self _ (by norm_num)) h2) (h1.trans h2)⟩

theorem md_rpm_bounds (s : Engine) (h1 : s.idle_rpm ≤ s.rpm) (h2 : s.rpm ≤ s.max_rpm) :
    (manual_downshift s).idle_rpm ≤ (manual_downshift s).rpm ∧
      (manual_downshift s).rpm ≤ (manual_downshift s).max_rpm := by
  rw [md_idle, md_max]
  rcases md_rpm_cases s with h | h <;> rw [h]
  · exact ⟨h1, h2⟩
  · exact ⟨le_min (le_trans h1 (le_add_of_nonneg_right (by norm_num))) (h1.trans h2),
      min_le_right _ _⟩

theorem runSim_rpm_inv (p04 : ℚ) (cmds : List SimCmd) : ∀ s : Engine,
    s.idle_rpm ≤ s.rpm → s.rpm ≤ s.max_rpm →
    (runSim p04 s cmds).idle_rpm ≤ (runSim p04 s cmds).rpm ∧
      (runSim p04 s cmds).rpm ≤ (runSim p04 s cmds).max_rpm := by
  induction cmds with
  | nil => exact fun s h1 h2 => ⟨h1, h2⟩
  | cons c cs ih =>
      intro s h1 h2
      cases c with
      | tick dt jr wr =>
          have h := ud_rpm_bounds p04 dt jr wr s (h1.trans h2)
          simpa only [runSim] using ih (update_dynamics p04 dt jr wr s) h.1 h.2
      | upshift =>
          have h := mu_rpm_bounds s h1 h2
          rw [mu_idle, mu_max] at h
          simpa only [runSim] using ih (manual_upshift s) (by rw [mu_idle]; exact h.1)
            (by rw [mu_max]; exact h.2)
      | downshift =>
          have h := md_rpm_bounds s h1 h2
          rw [md_idle, md_max] at h
          simpa only [runSim] using ih (manual_downshift s) (by rw [md_idle]; exact h.1)
            (by rw [md_max]; exact h.2)

theorem init_idle (p04 : ℚ) : (initialEngine p04).idle_rpm = 800 := by
  simp [initialEngine, update_vehicle_speed, up_idle, baseEngine]

theorem init_max (p04 : ℚ) : (initialEngine p04).max_rpm = 6000 := by
  simp [initialEngine, update_vehicle_speed, up_max, baseEngine]

theorem init_rpm (p04 : ℚ) : (initialEngine p04).rpm = 1000 := by
  simp [initialEngine, update_vehicle_speed, up_rpm, baseEngine]

/-! ## Claim C2 -/

/-- C2 (amended): after every tick the volumetric efficiency lies in
[0.7, 1.0]; the temperature lies in [85, 110] provided ceramic_coating
is inactive, and in [75, 110] in general, because the ceramic-coating
effect subtracts 5 degrees after the clamp on each of the up to two
performance recomputations of the tick. -/
theorem c2_bounds_amended (p04 dt : ℚ) (jr wr : ℕ) (s : Engine) :
    0.7 ≤ (update_dynamics p04 dt jr wr s).volumetric_efficiency ∧
    (update_dynamics p04 dt jr wr s).volumetric_efficiency ≤ 1 ∧
    75 ≤ (update_dynamics p04 dt jr wr s).engine_temperature ∧
    (update_dynamics p04 dt jr wr s).engine_temperature ≤ 110 ∧
    (s.upgrades.ceramic_coating = false →
      85 ≤ (update_dynamics p04 dt jr wr s).engine_temperature) := by
  obtain ⟨hv1, hv2⟩ := ud_ve_bounds p04 dt jr wr s
  obtain ⟨ht1, ht2⟩ := ip_temp_bounds dt jr s
  refine ⟨hv1, hv2, ?_, ?_, ?_⟩
  · rw [ud_temp_eq]; unfold ceraDrop; split_ifs <;> linarith
  · rw [ud_temp_eq]; unfold ceraDrop; split_ifs <;> linarith
  · intro hcf; rw [ud_temp_eq]; unfold ceraDrop; rw [hcf]; simp; linarith

set_option maxRecDepth 4000 in
/-- C2 (counterexample): with ceramic_coating active, a single tick
(dt = 0, jerk draw 100 i.e. zero perturbation, water draw 100 i.e. no
toggle) ends with engine_temperature = 80 < 85, refuting the claimed
lower bound 85. -/
theorem c2_counterexample :
    (update_dynamics 2 0 100 100 c2state).engine_temperature = 80 ∧
      ¬ (85 ≤ (update_dynamics 2 0 100 100 c2state).engine_temperature) := by
  with_unfolding_all decide

/-- Witness for C2 (amended) at a concrete input. -/
theorem c2_bounds_amended_witness :
    85 ≤ (update_dynamics 2 1 100 100 baseEngine).engine_temperature := by
  have h := c2_bounds_amended 2 1 100 100 baseEngine
  exact h.2.2.2.2 rfl

/-! ## Claim C5 -/

/-- C5: applying an identifier that is not one of the eleven known
upgrade names reports the unknown-upgrade outcome and returns the state
completely unchanged; the operation is total (non-fatal). -/
theorem c5_unknown_upgrade (p04 : ℚ) (u : String) (s : Engine)
    (h : u ∉ knownUpgradeNames) :
    apply_upgrade p04 u s = (s, ApplyOutcome.unknownUpgrade) := by
  unfold apply_upgrade
  rw [if_neg h]

/-- Witness for C5: the unknown identifier "nitrous_oxide" leaves the
freshly constructed engine untouched. -/
theorem c5_unknown_upgrade_witness :
    apply_upgrade 2 "nitrous_oxide" baseEngine = (baseEngine, ApplyOutcome.unknownUpgrade) :=
  c5_unknown_upgrade 2 "nitrous_oxide" baseEngine (by decide)

/-! ## Claim C7 -/

/-- C7: for every engine state, the performance recomputation with
water injection active yields exactly 1.1 times the thermal efficiency
and exactly 0.8 times the NOx emissions of the otherwise-identical
recomputation with water injection inactive. -/
theorem c7_water_injection_factors (p04 : ℚ) (s : Engine) :
    (update_performance p04 { s with water_injection_active := true }).thermal_efficiency =
      1.1 * (update_performance p04 { s with water_injection_active := false }).thermal_efficiency ∧
    (update_performance p04 { s with water_injection_active := true }).nox_emissions =
      0.8 * (update_performance p04 { s with water_injection_active := false }).nox_emissions := by
  constructor
  · simp only [up_thermal, wiThermal]
    simp
    ring
  · simp only [up_nox, noxOf, wiNoxF, powerPre]
    simp
    ring

/-! ## Claim C8 -/

/-- C8: on the five-gear gearbox, shift_up at the top gear and
shift_down at gear 1 are no-ops on the whole gearbox state, and
otherwise each call moves the index by exactly one; both operations are
total. -/
theorem c8_gearbox (g : Gearbox) (h5 : g.gearRs.length = 5) :
    (g.current_gear = 5 → g.shift_up = g) ∧
    (g.current_gear = 1 → g.shift_down = g) ∧
    (g.current_gear < 5 → g.shift_up.current_gear = g.current_gear + 1) ∧
    (1 < g.current_gear → g.shift_down.current_gear = g.current_gear - 1) := by
  refine ⟨?_, ?_, ?_, ?_⟩
  · intro h; simp [Gearbox.shift_up, h5, h]
  · intro h; simp [Gearbox.shift_down, h]
  · intro h; simp [Gearbox.shift_up, h5, h]
  · intro h; simp [Gearbox.shift_down, h]

/-- Witness for C8 on the concrete five-ratio gearbox: no-op at the top
and bottom, single-step moves in between. -/
theorem c8_gearbox_witness :
    gbTop.shift_up = gbTop ∧ initGearbox.shift_down = initGearbox ∧
      initGearbox.shift_up.current_gear = 2 ∧ gbTop.shift_down.current_gear = 4 := by
  have hT := c8_gearbox gbTop rfl
  have hB := c8_gearbox initGearbox rfl
  exact ⟨hT.1 rfl, hB.2.1 rfl, hB.2.2.1 (by norm_num [initGearbox]),
    hT.2.2.2 (by norm_num [gbTop, initGearbox])⟩

/-! ## Claim C4 -/

/-- When the gear after the tick differs from `prevGear`, the
notification is set with the 3-second timer (lines 263-266). -/
theorem mp_changed (p : ℤ) (dt : ℚ) (s : Engine) (h : s.gearbox.current_gear ≠ p) :
    messagePhase p dt s =
      { s with gear_shift_message := "Shifted to gear " ++ toString s.gearbox.current_gear
               gear_shift_message_timer := 3 } := by
  unfold messagePhase
  rw [if_pos h]

theorem mp_changed_msg (p : ℤ) (dt : ℚ) (s : Engine)
    (h : (messagePhase p dt s).gearbox.current_gear ≠ p) :
    (messagePhase p dt s).gear_shift_message_timer = 3 ∧
      (messagePhase p dt s).gear_shift_message =
        "Shifted to gear " ++ toString (messagePhase p dt s).gearbox.current_gear := by
  have hA : s.gearbox.current_gear ≠ p := by rwa [mp_gearbox] at h
  rw [mp_changed _ _ _ hA]
  exact ⟨rfl, rfl⟩

theorem ud_eq_tail (p04 dt : ℚ) (jr wr : ℕ) (s : Engine) :
    update_dynamics p04 dt jr wr s = tickTail p04 dt (waterPhase p04 wr (integratePhase dt jr s)) := rfl

theorem tickTail_shiftup (p04 dt : ℚ) (t : Engine)
    (hmode : t.transmission_mode = TransmissionMode.Automatic)
    (hlen : t.gearbox.gearRs.length = 5)
    (h1 : t.rpm > 4000) (h2 : t.gearbox.current_gear < 5) :
    (tickTail p04 dt t).gearbox.current_gear = t.gearbox.current_gear + 1 ∧
    (tickTail p04 dt t).rpm = max t.idle_rpm (min t.max_rpm (t.rpm - 1500)) ∧
    (tickTail p04 dt t).gear_shift_message =
      "Shifted to gear " ++ toString (t.gearbox.current_gear + 1) ∧
    (tickTail p04 dt t).gear_shift_message_timer = 3 := by
  have hshift : autoShiftPhase t = { t with gearbox := t.gearbox.shift_up, rpm := t.rpm - 1500 } := by
    unfold autoShiftPhase
    rw [if_pos hmode, if_pos (show t.rpm > 4000 ∧ t.gearbox.current_gear < 5 from ⟨h1, h2⟩)]
  have hup : t.gearbox.shift_up = { t.gearbox with current_gear := t.gearbox.current_gear + 1 } := by
    unfold Gearbox.shift_up
    rw [if_pos (by rw [hlen]; exact_mod_cast h2)]
  unfold tickTail
  rw [hshift, hup]
  rw [mp_changed _ _ _ (by simp only [update_vehicle_speed, up_gearbox]; omega)]
  simp [update_vehicle_speed, up_gearbox, up_rpm, up_idle, up_max]

theorem tickTail_shiftdown (p04 dt : ℚ) (t : Engine)
    (hmode : t.transmission_mode = TransmissionMode.Automatic)
    (h1 : t.rpm < 2000) (h2 : t.gearbox.current_gear > 1) :
    (tickTail p04 dt t).gearbox.current_gear = t.gearbox.current_gear - 1 ∧
    (tickTail p04 dt t).rpm = max t.idle_rpm (min t.max_rpm (t.rpm + 1500)) ∧
    (tickTail p04 dt t).gear_shift_message =
      "Shifted to gear " ++ toString (t.gearbox.current_gear - 1) ∧
    (tickTail p04 dt t).gear_shift_message_timer = 3 := by
  have hshift : autoShiftPhase t =
      { t with gearbox := t.gearbox.shift_down, rpm := t.rpm + 1500 } := by
    unfold autoShiftPhase
    rw [if_pos hmode, if_neg (by rintro ⟨h, _⟩; linarith),
      if_pos (show t.rpm < 2000 ∧ t.gearbox.current_gear > 1 from ⟨h1, h2⟩)]
  have hdown : t.gearbox.shift_down =
      { t.gearbox with current_gear := t.gearbox.current_gear - 1 } := by
    unfold Gearbox.shift_down
    rw [if_pos h2]
  unfold tickTail
  rw [hshift, hdown]
  rw [mp_changed _ _ _ (by simp only [update_vehicle_speed, up_gearbox]; omega)]
  simp [update_vehicle_speed, up_gearbox, up_rpm, up_idle, up_max]

/-- C4: in an Automatic-mode tick of the five-gear engine, if the rpm
at the auto-shift decision point (just after integration and the
possible water toggle, which do not change rpm or gear) exceeds 4000
and the gear is below the top gear, the gearbox shifts up one gear and
the rpm loses 1500 and is then re-clamped to [idle_rpm, max_rpm];
symmetrically below 2000 rpm above gear 1 it shifts down and gains
1500; and whenever the gear changed during the tick, the
shift-notification message is set with the 3.0-second timer. -/
theorem c4_auto_shift (p04 dt : ℚ) (jr wr : ℕ) (s : Engine)
    (hmode : s.transmission_mode = TransmissionMode.Automatic)
    (hlen : s.gearbox.gearRs.length = 5) :
    ((waterPhase p04 wr (integratePhase dt jr s)).rpm > 4000 →
      s.gearbox.current_gear < 5 →
      (update_dynamics p04 dt jr wr s).gearbox.current_gear = s.gearbox.current_gear + 1 ∧
      (update_dynamics p04 dt jr wr s).rpm =
        max s.idle_rpm (min s.max_rpm ((waterPhase p04 wr (integratePhase dt jr s)).rpm - 1500)) ∧
      (update_dynamics p04 dt jr wr s).gear_shift_message =
        "Shifted to gear " ++ toString (s.gearbox.current_gear + 1) ∧
      (update_dynamics p04 dt jr wr s).gear_shift_message_timer = 3) ∧
    ((waterPhase p04 wr (integratePhase dt jr s)).rpm < 2000 →
      s.gearbox.current_gear > 1 →
      (update_dynamics p04 dt jr wr s).gearbox.current_gear = s.gearbox.current_gear - 1 ∧
      (update_dynamics p04 dt jr wr s).rpm =
        max s.idle_rpm (min s.max_rpm ((waterPhase p04 wr (integratePhase dt jr s)).rpm + 1500)) ∧
      (update_dynamics p04 dt jr wr s).gear_shift_message =
        "Shifted to gear " ++ toString (s.gearbox.current_gear - 1) ∧
      (update_dynamics p04 dt jr wr s).gear_shift_message_timer = 3) ∧
    ((update_dynamics p04 dt jr wr s).gearbox.current_gear ≠ s.gearbox.current_gear →
      (update_dynamics p04 dt jr wr s).gear_shift_message_timer = 3 ∧
      (update_dynamics p04 dt jr wr s).gear_shift_message =
        "Shifted to gear " ++ toString (update_dynamics p04 dt jr wr s).gearbox.current_gear) := by
  have hsg : (waterPhase p04 wr (integratePhase dt jr s)).gearbox = s.gearbox := by
    rw [wp_gearbox, ip_gearbox]
  have hmt : (waterPhase p04 wr (integratePhase dt jr s)).transmission_mode =
      TransmissionMode.Automatic := by rw [wp_mode, ip_mode]; exact hmode
  have hidle : (waterPhase p04 wr (integratePhase dt jr s)).idle_rpm = s.idle_rpm := by
    rw [wp_idle, ip_idle]
  have hmax : (waterPhase p04 wr (integratePhase dt jr s)).max_rpm = s.max_rpm := by
    rw [wp_max, ip_max]
  refine ⟨?_, ?_, ?_⟩
  · intro h1 h2
    have H := tickTail_shiftup p04 dt (waterPhase p04 wr (integratePhase dt jr s)) hmt
      (by rw [hsg]; exact hlen) h1 (by rw [hsg]; exact h2)
    rw [hsg, hidle, hmax] at H
    rw [ud_eq_tail]
    exact H
  · intro h1 h2
    have H := tickTail_shiftdown p04 dt (waterPhase p04 wr (integratePhase dt jr s)) hmt h1
      (by rw [hsg]; exact h2)
    rw [hsg, hidle, hmax] at H
    rw [ud_eq_tail]
    exact H
  · intro hch
    rw [ud_eq_tail] at hch ⊢
    unfold tickTail at hch ⊢
    rw [← hsg] at hch
    exact mp_changed_msg _ _ _ hch

/-- Witness for C4: with dt = 0 and neutral draws the decision-point
rpm is 4200, so the tick shifts 1 to 2, subtracts 1500 rpm and posts
the 3-second notification. -/
theorem c4_auto_shift_witness :
    (update_dynamics 2 0 100 100 c4state).gearbox.current_gear = 2 ∧
    (update_dynamics 2 0 100 100 c4state).rpm = 2700 ∧
    (update_dynamics 2 0 100 100 c4state).gear_shift_message = "Shifted to gear 2" ∧
    (update_dynamics 2 0 100 100 c4state).gear_shift_message_timer = 3 := by
  have hrpm : (waterPhase 2 100 (integratePhase 0 100 c4state)).rpm = 4200 := by
    rw [wp_rpm]
    simp only [integratePhase, c4state, baseEngine, mul_zero, add_zero, zero_mul]
    norm_num [min_def, max_def]
  have H := (c4_auto_shift 2 0 100 100 c4state rfl rfl).1
    (by rw [hrpm]; norm_num) (by decide)
  obtain ⟨hg, hr, hm, ht⟩ := H
  refine ⟨?_, ?_, ?_, ht⟩
  · rw [hg]; decide
  · rw [hr, hrpm]
    norm_num [c4state, baseEngine, min_def, max_def]
  · rw [hm]; with_unfolding_all decide

/-! ## Claim C6 -/

/-- C6: manual shift commands change state only in Manual mode; in
Manual mode at a gear limit the gear and rpm are unchanged and the
notification reports the limit ("Already in highest gear" at the top)
with the 3-second timer; otherwise the gear moves by one, rpm is
adjusted by -1500 (up, clamped at idle_rpm) or +1500 (down, clamped at
max_rpm), and the notification names the new gear. -/
theorem c6_manual_shift (s : Engine) (hlen : s.gearbox.gearRs.length = 5) :
    (s.transmission_mode ≠ TransmissionMode.Manual →
      manual_upshift s = s ∧ manual_downshift s = s) ∧
    (s.transmission_mode = TransmissionMode.Manual →
      (s.gearbox.current_gear = 5 →
        (manual_upshift s).gearbox.current_gear = 5 ∧ (manual_upshift s).rpm = s.rpm ∧
        (manual_upshift s).gear_shift_message = "Already in highest gear" ∧
        (manual_upshift s).gear_shift_message_timer = 3) ∧
      (s.gearbox.current_gear < 5 →
        (manual_upshift s).gearbox.current_gear = s.gearbox.current_gear + 1 ∧
        (manual_upshift s).rpm = max (s.rpm - 1500) s.idle_rpm ∧
        (manual_upshift s).gear_shift_message =
          "Manually shifted up to gear " ++ toString (s.gearbox.current_gear + 1) ∧
        (manual_upshift s).gear_shift_message_timer = 3) ∧
      (s.gearbox.current_gear = 1 →
        (manual_downshift s).gearbox.current_gear = 1 ∧ (manual_downshift s).rpm = s.rpm ∧
        (manual_downshift s).gear_shift_message = "Already in lowest gear" ∧
        (manual_downshift s).gear_shift_message_timer = 3) ∧
      (1 < s.gearbox.current_gear →
        (manual_downshift s).gearbox.current_gear = s.gearbox.current_gear - 1 ∧
        (manual_downshift s).rpm = min (s.rpm + 1500) s.max_rpm ∧
        (manual_downshift s).gear_shift_message =
          "Manually shifted down to gear " ++ toString (s.gearbox.current_gear - 1) ∧
        (manual_downshift s).gear_shift_message_timer = 3)) := by
  constructor
  · intro h
    constructor
    · unfold manual_upshift; rw [if_neg h]
    · unfold manual_downshift; rw [if_neg h]
  · intro hm
    refine ⟨?_, ?_, ?_, ?_⟩
    · intro h5
      have hup : s.gearbox.shift_up = s.gearbox := by
        unfold Gearbox.shift_up
        rw [if_neg (by rw [hlen, h5]; omega)]
      unfold manual_upshift
      rw [if_pos hm]
      dsimp only
      rw [hup, if_neg (by simp)]
      simp [hup, h5]
    · intro hlt
      have hup : s.gearbox.shift_up =
          { s.gearbox with current_gear := s.gearbox.current_gear + 1 } := by
        unfold Gearbox.shift_up
        rw [if_pos (by rw [hlen]; exact_mod_cast hlt)]
      unfold manual_upshift
      rw [if_pos hm]
      dsimp only
      rw [hup, if_pos (by simp)]
      simp
    · intro h1
      have hdown : s.gearbox.shift_down = s.gearbox := by
        unfold Gearbox.shift_down
        rw [if_neg (by rw [h1]; omega)]
      unfold manual_downshift
      rw [if_pos hm]
      dsimp only
      rw [hdown, if_neg (by simp)]
      simp [hdown, h1]
    · intro hgt
      have hdown : s.gearbox.shift_down =
          { s.gearbox with current_gear := s.gearbox.current_gear - 1 } := by
        unfold Gearbox.shift_down
        rw [if_pos hgt]
      unfold manual_downshift
      rw [if_pos hm]
      dsimp only
      rw [hdown, if_pos (by simp)]
      simp

/-- Witness for C6: `manual_upshift` at the top gear in Manual mode
keeps gear 5 and rpm, and posts "Already in highest gear" for 3
seconds. -/
theorem c6_manual_shift_witness :
    (manual_upshift c6state).gearbox.current_gear = 5 ∧
    (manual_upshift c6state).rpm = c6state.rpm ∧
    (manual_upshift c6state).gear_shift_message = "Already in highest gear" ∧
    (manual_upshift c6state).gear_shift_message_timer = 3 :=
  ((c6_manual_shift c6state rfl).2 rfl).1 rfl

/-! ## Claim C1 -/

/-- C1: starting from the constructed engine, idle_rpm ≤ rpm ≤ max_rpm
holds after every tick of every command sequence (ticks of
update_dynamics with arbitrary nonnegative dt and arbitrary random
draws, interleaved with the manual shift commands named by the claim
sources). -/
theorem c1_rpm_bounds (p04 : ℚ) (cmds : List SimCmd) (hne : cmds ≠ [])
    (hdt : ∀ c ∈ cmds, c.dtNonneg) :
    (runSim p04 (initialEngine p04) cmds).idle_rpm ≤ (runSim p04 (initialEngine p04) cmds).rpm ∧
      (runSim p04 (initialEngine p04) cmds).rpm ≤ (runSim p04 (initialEngine p04) cmds).max_rpm := by
  have h1 : (initialEngine p04).idle_rpm ≤ (initialEngine p04).rpm := by
    rw [init_idle, init_rpm]; norm_num
  have h2 : (initialEngine p04).rpm ≤ (initialEngine p04).max_rpm := by
    rw [init_rpm, init_max]; norm_num
  exact runSim_rpm_inv p04 cmds (initialEngine p04) h1 h2

/-- Witness for C1: one tick of one second from the fresh engine. -/
theorem c1_rpm_bounds_witness :
    (runSim 2 (initialEngine 2) [SimCmd.tick 1 0 100]).idle_rpm ≤
        (runSim 2 (initialEngine 2) [SimCmd.tick 1 0 100]).rpm ∧
      (runSim 2 (initialEngine 2) [SimCmd.tick 1 0 100]).rpm ≤
        (runSim 2 (initialEngine 2) [SimCmd.tick 1 0 100]).max_rpm :=
  c1_rpm_bounds 2 [SimCmd.tick 1 0 100] (by simp)
    (by intro c hc; simp only [List.mem_singleton] at hc; subst hc; norm_num [SimCmd.dtNonneg])

/-! ## Claim C9 -/

theorem accelerate_eq (p04 : ℚ) (s : Engine) :
    accelerate p04 s = shiftTailUp (update_vehicle_speed (update_performance p04 (accelMid s))) := rfl

theorem decelerate_eq (p04 : ℚ) (s : Engine) :
    decelerate p04 s = shiftTailDown (update_vehicle_speed (update_performance p04 (decelMid s))) := rfl

theorem accelMid_eq (s : Engine) : accelMid s =
    { s with
      rpm := if s.rpm + 100 > s.max_rpm then s.max_rpm else s.rpm + 100
      engine_temperature :=
        if s.engine_temperature + max 0 (tempIncOf s.engine_temperature) > 110 then 110
        else s.engine_temperature + max 0 (tempIncOf s.engine_temperature) } := by
  unfold accelMid
  dsimp only
  split_ifs <;> rfl

theorem decelMid_eq (s : Engine) : decelMid s =
    { s with
      rpm := if s.rpm - 100 < s.idle_rpm then s.idle_rpm else s.rpm - 100
      engine_temperature :=
        if s.engine_temperature - max 0 (tempDecOf s.engine_temperature) < 85 then 85
        else s.engine_temperature - max 0 (tempDecOf s.engine_temperature) } := by
  unfold decelMid
  dsimp only
  split_ifs <;> rfl

theorem shiftTailUp_pos (s : Engine) (hlen : s.gearbox.gearRs.length = 5)
    (h1 : s.rpm > 4000) (h2 : s.gearbox.current_gear < 5) :
    (shiftTailUp s).rpm = s.rpm - 1500 ∧
      (shiftTailUp s).gearbox.current_gear = s.gearbox.current_gear + 1 := by
  unfold shiftTailUp
  rw [if_pos (show s.rpm > 4000 ∧ s.gearbox.current_gear < 5 from ⟨h1, h2⟩)]
  have hup : s.gearbox.shift_up = { s.gearbox with current_gear := s.gearbox.current_gear + 1 } := by
    unfold Gearbox.shift_up
    rw [if_pos (by rw [hlen]; exact_mod_cast h2)]
  rw [hup]
  exact ⟨rfl, rfl⟩

theorem shiftTailUp_neg (s : Engine) (h : ¬(s.rpm > 4000 ∧ s.gearbox.current_gear < 5)) :
    shiftTailUp s = s := by
  unfold shiftTailUp
  rw [if_neg h]

theorem shiftTailDown_pos (s : Engine) (h1 : s.rpm < 2000) (h2 : s.gearbox.current_gear > 1) :
    (shiftTailDown s).rpm = s.rpm + 1500 ∧
      (shiftTailDown s).gearbox.current_gear = s.gearbox.current_gear - 1 := by
  unfold shiftTailDown
  rw [if_pos (show s.rpm < 2000 ∧ s.gearbox.current_gear > 1 from ⟨h1, h2⟩)]
  have hdown : s.gearbox.shift_down =
      { s.gearbox with current_gear := s.gearbox.current_gear - 1 } := by
    unfold Gearbox.shift_down
    rw [if_pos h2]
  rw [hdown]
  exact ⟨rfl, rfl⟩

theorem shiftTailDown_neg (s : Engine) (h : ¬(s.rpm < 2000 ∧ s.gearbox.current_gear > 1)) :
    shiftTailDown s = s := by
  unfold shiftTailDown
  rw [if_neg h]

theorem shiftTail_jerk (s : Engine) :
    (shiftTailUp s).jerk = s.jerk ∧ (shiftTailUp s).acceleration = s.acceleration ∧
      (shiftTailDown s).jerk = s.jerk ∧ (shiftTailDown s).acceleration = s.acceleration := by
  unfold shiftTailUp shiftTailDown
  split_ifs <;> exact ⟨rfl, rfl, rfl, rfl⟩

theorem shiftTail_temp (s : Engine) :
    (shiftTailUp s).engine_temperature = s.engine_temperature ∧
      (shiftTailDown s).engine_temperature = s.engine_temperature := by
  unfold shiftTailUp shiftTailDown
  split_ifs <;> exact ⟨rfl, rfl⟩

/-- C9: the accelerate pedal adds the fixed step 100 to rpm (capped at
max_rpm) and decelerate subtracts the same step (floored at idle_rpm);
the temperature adjustment is asymmetric (the warm-up increment always
exceeds the cool-down decrement on the operating range, both capped
into [85, 110], with the ceramic-coating recomputation drop applied
after); the pedals leave jerk and acceleration untouched; and each
pedal then applies the same shift rule as the Automatic tick
thresholds: above 4000 rpm below top gear the gearbox shifts up and
rpm loses 1500, below 2000 rpm above gear 1 it shifts down and rpm
gains 1500. -/
theorem c9_pedals (p04 : ℚ) (s : Engine) (hlen : s.gearbox.gearRs.length = 5) :
    ((accelerate p04 s).jerk = s.jerk ∧ (accelerate p04 s).acceleration = s.acceleration ∧
      (decelerate p04 s).jerk = s.jerk ∧ (decelerate p04 s).acceleration = s.acceleration) ∧
    ((if s.rpm + 100 > s.max_rpm then s.max_rpm else s.rpm + 100) > 4000 →
      s.gearbox.current_gear < 5 →
      (accelerate p04 s).rpm =
        (if s.rpm + 100 > s.max_rpm then s.max_rpm else s.rpm + 100) - 1500 ∧
      (accelerate p04 s).gearbox.current_gear = s.gearbox.current_gear + 1) ∧
    (¬((if s.rpm + 100 > s.max_rpm then s.max_rpm else s.rpm + 100) > 4000 ∧
        s.gearbox.current_gear < 5) →
      (accelerate p04 s).rpm = (if s.rpm + 100 > s.max_rpm then s.max_rpm else s.rpm + 100) ∧
      (accelerate p04 s).gearbox = s.gearbox) ∧
    ((accelerate p04 s).engine_temperature =
      (if s.engine_temperature + max 0 (tempIncOf s.engine_temperature) > 110 then 110
        else s.engine_temperature + max 0 (tempIncOf s.engine_temperature)) -
        ceraDrop s.upgrades) ∧
    ((if s.rpm - 100 < s.idle_rpm then s.idle_rpm else s.rpm - 100) < 2000 →
      s.gearbox.current_gear > 1 →
      (decelerate p04 s).rpm =
        (if s.rpm - 100 < s.idle_rpm then s.idle_rpm else s.rpm - 100) + 1500 ∧
      (decelerate p04 s).gearbox.current_gear = s.gearbox.current_gear - 1) ∧
    (¬((if s.rpm - 100 < s.idle_rpm then s.idle_rpm else s.rpm - 100) < 2000 ∧
        s.gearbox.current_gear > 1) →
      (decelerate p04 s).rpm = (if s.rpm - 100 < s.idle_rpm then s.idle_rpm else s.rpm - 100) ∧
      (decelerate p04 s).gearbox = s.gearbox) ∧
    ((decelerate p04 s).engine_temperature =
      (if s.engine_temperature - max 0 (tempDecOf s.engine_temperature) < 85 then 85
        else s.engine_temperature - max 0 (tempDecOf s.engine_temperature)) -
        ceraDrop s.upgrades) ∧
    (∀ t : ℚ, 85 ≤ t → t ≤ 110 → max 0 (tempDecOf t) < max 0 (tempIncOf t)) := by
  have hAfields : ∀ x : Engine,
      (update_vehicle_speed (update_performance p04 x)).rpm = x.rpm ∧
      (update_vehicle_speed (update_performance p04 x)).gearbox = x.gearbox ∧
      (update_vehicle_speed (update_performance p04 x)).jerk = x.jerk ∧
      (update_vehicle_speed (update_performance p04 x)).acceleration = x.acceleration ∧
      (update_vehicle_speed (update_performance p04 x)).engine_temperature =
        x.engine_temperature - ceraDrop x.upgrades := by
    intro x
    simp [update_vehicle_speed, up_rpm, up_gearbox, up_jerk, up_accel, up_temp]
  have hmr : (accelMid s).rpm =
      (if s.rpm + 100 > s.max_rpm then s.max_rpm else s.rpm + 100) := by rw [accelMid_eq]
  have hmg : (accelMid s).gearbox = s.gearbox := by rw [accelMid_eq]
  have hmj : (accelMid s).jerk = s.jerk := by rw [accelMid_eq]
  have hma : (accelMid s).acceleration = s.acceleration := by rw [accelMid_eq]
  have hmT : (accelMid s).engine_temperature =
      (if s.engine_temperature + max 0 (tempIncOf s.engine_temperature) > 110 then 110
        else s.engine_temperature + max 0 (tempIncOf s.engine_temperature)) := by rw [accelMid_eq]
  have hmU : (accelMid s).upgrades = s.upgrades := by rw [accelMid_eq]
  have hdr : (decelMid s).rpm =
      (if s.rpm - 100 < s.idle_rpm then s.idle_rpm else s.rpm - 100) := by rw [decelMid_eq]
  have hdg : (decelMid s).gearbox = s.gearbox := by rw [decelMid_eq]
  have hdj : (decelMid s).jerk = s.jerk := by rw [decelMid_eq]
  have hda : (decelMid s).acceleration = s.acceleration := by rw [decelMid_eq]
  have hdT : (decelMid s).engine_temperature =
      (if s.engine_temperature - max 0 (tempDecOf s.engine_temperature) < 85 then 85
        else s.engine_temperature - max 0 (tempDecOf s.engine_temperature)) := by rw [decelMid_eq]
  have hdU : (decelMid s).upgrades = s.upgrades := by rw [decelMid_eq]
  obtain ⟨hAr, hAg, hAj, hAa, hAt⟩ := hAfields (accelMid s)
  obtain ⟨hDr, hDg, hDj, hDa, hDt⟩ := hAfields (decelMid s)
  refine ⟨⟨?_, ?_, ?_, ?_⟩, ?_, ?_, ?_, ?_, ?_, ?_, ?_⟩
  · rw [accelerate_eq, (shiftTail_jerk _).1, hAj, hmj]
  · rw [accelerate_eq, (shiftTail_jerk _).2.1, hAa, hma]
  · rw [decelerate_eq, (shiftTail_jerk _).2.2.1, hDj, hdj]
  · rw [decelerate_eq, (shiftTail_jerk _).2.2.2, hDa, hda]
  · intro h1 h2
    rw [accelerate_eq]
    have H := shiftTailUp_pos (update_vehicle_speed (update_performance p04 (accelMid s)))
      (by rw [hAg, hmg]; exact hlen) (by rw [hAr, hmr]; exact h1) (by rw [hAg, hmg]; exact h2)
    rw [hAr, hmr, hAg, hmg] at H
    exact H
  · intro h
    rw [accelerate_eq]
    rw [shiftTailUp_neg _ (by rw [hAr, hmr, hAg, hmg]; exact h)]
    exact ⟨hAr.trans hmr, hAg.trans hmg⟩
  · rw [accelerate_eq, (shiftTail_temp _).1, hAt, hmT, hmU]
  · intro h1 h2
    rw [decelerate_eq]
    have H := shiftTailDown_pos (update_vehicle_speed (update_performance p04 (decelMid s)))
      (by rw [hDr, hdr]; exact h1) (by rw [hDg, hdg]; exact h2)
    rw [hDr, hdr, hDg, hdg] at H
    exact H
  · intro h
    rw [decelerate_eq]
    rw [shiftTailDown_neg _ (by rw [hDr, hdr, hDg, hdg]; exact h)]
    exact ⟨hDr.trans hdr, hDg.trans hdg⟩
  · rw [decelerate_eq, (shiftTail_temp _).2, hDt, hdT, hdU]
  · intro t ht85 ht110
    have hinc : (0.4 : ℚ) ≤ tempIncOf t := by unfold tempIncOf; linarith
    have hdec : tempDecOf t ≤ 0.04 := by unfold tempDecOf; linarith
    calc max 0 (tempDecOf t) ≤ 0.04 := max_le (by norm_num) hdec
      _ < 0.4 := by norm_num
      _ ≤ tempIncOf t := hinc
      _ ≤ max 0 (tempIncOf t) := le_max_right _ _

theorem init_gear (p04 : ℚ) : (initialEngine p04).gearbox.current_gear = 1 := by
  simp [initialEngine, update_vehicle_speed, up_gearbox, baseEngine, initGearbox]

theorem init_gblen (p04 : ℚ) : (initialEngine p04).gearbox.gearRs.length = 5 := by
  simp [initialEngine, update_vehicle_speed, up_gearbox, baseEngine, initGearbox]

/-- Witness for C9 on the fresh engine: accelerate raises rpm from
1000 to 1100 with no shift (1100 is not above 4000), decelerate lowers
it to 900 with no shift (gear is already 1), and the warm-up step
strictly exceeds the cool-down step at the optimal temperature 90. -/
theorem c9_pedals_witness :
    (accelerate 2 (initialEngine 2)).rpm = 1100 ∧
      (decelerate 2 (initialEngine 2)).rpm = 900 ∧
      max 0 (tempDecOf 90) < max 0 (tempIncOf 90) := by
  have hA : (if (initialEngine 2).rpm + 100 > (initialEngine 2).max_rpm then
      (initialEngine 2).max_rpm else (initialEngine 2).rpm + 100) = 1100 := by
    rw [init_rpm, init_max]; norm_num
  have hB : (if (initialEngine 2).rpm - 100 < (initialEngine 2).idle_rpm then
      (initialEngine 2).idle_rpm else (initialEngine 2).rpm - 100) = 900 := by
    rw [init_rpm, init_idle]; norm_num
  have H := c9_pedals 2 (initialEngine 2) (init_gblen 2)
  refine ⟨?_, ?_, H.2.2.2.2.2.2.2 90 (by norm_num) (by norm_num)⟩
  · have h := (H.2.2.1 (by rw [hA]; intro hcon; exact absurd hcon.1 (by norm_num))).1
    rw [h, hA]
  · have h := (H.2.2.2.2.2.1 (by rw [hB, init_gear]; intro hcon; exact absurd hcon.2 (by norm_num))).1
    rw [h, hB]

/-! ## Claim C10 -/

theorem up_iterate_upgrades (p04 : ℚ) (s : Engine) (n : ℕ) :
    ((fun e => update_performance p04 e)^[n] s).upgrades = s.upgrades := by
  induction n with
  | zero => rfl
  | succ n ih => rw [Function.iterate_succ_apply', up_upgrades, ih]

/-- C10: while the turbocharger upgrade is active (and
variable_valve_timing, the only other volumetric-efficiency multiplier,
is not), every performance recomputation replaces
volumetric_efficiency by clamp(1.15 * volumetric_efficiency); with the
turbocharger active the per-recomputation value never decreases and
never exceeds 1; and starting from the initial value 0.9 it equals
exactly 1.0 after every recomputation from the first one on. -/
theorem c10_turbo_ve (p04 : ℚ) (s : Engine) :
    (s.upgrades.turbocharger = true → s.upgrades.variable_valve_timing = false →
      (update_performance p04 s).volumetric_efficiency =
        min (max (s.volumetric_efficiency * 1.15) 0.7) 1) ∧
    (s.upgrades.turbocharger = true → s.volumetric_efficiency ≤ 1 →
      s.volumetric_efficiency ≤ (update_performance p04 s).volumetric_efficiency ∧
        (update_performance p04 s).volumetric_efficiency ≤ 1) ∧
    (s.upgrades.turbocharger = true → s.volumetric_efficiency = 0.9 →
      ∀ n : ℕ, 1 ≤ n →
        ((fun e => update_performance p04 e)^[n] s).volumetric_efficiency = 1) := by
  refine ⟨?_, ?_, ?_⟩
  · intro ht hv
    rw [up_ve]
    unfold vMult
    rw [ht, hv]
    norm_num
  · intro ht hle
    rw [up_ve]
    unfold vMult
    rw [ht]
    by_cases hv : s.upgrades.variable_valve_timing = true
    all_goals simp only [hv, if_true, if_false, Bool.not_eq_true]
    all_goals try rw [if_neg (by simp [hv])]
    all_goals constructor
    · refine le_min ?_ hle
      rcases le_or_lt 0 s.volumetric_efficiency with h0 | h0
      · exact le_trans (by nlinarith) (le_max_left _ _)
      · exact le_trans (by linarith) (le_max_right _ _)
    · exact min_le_right _ _
    · refine le_min ?_ hle
      rcases le_or_lt 0 s.volumetric_efficiency with h0 | h0
      · exact le_trans (by nlinarith) (le_max_left _ _)
      · exact le_trans (by linarith) (le_max_right _ _)
    · exact min_le_right _ _
  · intro ht hv9
    intro n hn
    induction n with
    | zero => omega
    | succ n ih =>
        rcases Nat.eq_zero_or_pos n with hz | hp
        · subst hz
          rw [Function.iterate_one, up_ve]
          unfold vMult
          rw [ht, hv9]
          by_cases hv : s.upgrades.variable_valve_timing = true
          · rw [if_pos hv]; norm_num
          · rw [if_neg hv]; norm_num
        · have hvn := ih hp
          rw [Function.iterate_succ_apply', up_ve, up_iterate_upgrades, hvn]
          unfold vMult
          rw [ht]
          by_cases hv : s.upgrades.variable_valve_timing = true
          · rw [if_pos hv]; norm_num
          · rw [if_neg hv]; norm_num

/-- Witness for C10: one recomputation drives the volumetric efficiency
from 0.9 to exactly 1.0 (0.9 * 1.15 = 1.035, clamped to 1). -/
theorem c10_turbo_ve_witness :
    (update_performance 2 c10state).volumetric_efficiency = 1 := by
  have H := (c10_turbo_ve 2 c10state).2.2 rfl rfl 1 (le_refl 1)
  rwa [Function.iterate_one] at H



/-! ## Claim C3

Comparing one `update_performance` pass with an upgrade flag set
against the otherwise-identical pass with it cleared; the `with...`
flag setters stand for the two states being compared. -/

/-- Scaling the accumulated power multiplier by `kp` and the pre-water
thermal efficiency by `kt` scales the recomputed fuel consumption by
`kp / kt`; holds without any nonzeroness side condition. -/
theorem fuelOf_scale (p04 : ℚ) (s1 s0 : Engine) (kp kt : ℚ)
    (hp : powerPre s1 * pMult s1.upgrades = kp * (powerPre s0 * pMult s0.upgrades))
    (ht : thermalPre p04 s1.upgrades = kt * thermalPre p04 s0.upgrades) :
    fuelOf p04 s1 = kp * fuelOf p04 s0 / kt := by
  unfold fuelOf
  rw [hp, ht,
    show (43000 : ℚ) * (kt * thermalPre p04 s0.upgrades) =
      43000 * thermalPre p04 s0.upgrades * kt from by ring,
    ← div_div]
  ring

/-- Effect of advanced_materials on one recomputation: power gains its documented factor 1.05; fuel and NOx, recomputed downstream from power, scale with it; BSFC and CO2 cancel the factor; nothing else moves. -/
theorem upDiff_adv (p04 : ℚ) (s : Engine) :
    (update_performance p04 (withAdv true s)).power_output = 1.05 * (update_performance p04 (withAdv false s)).power_output ∧
    (update_performance p04 (withAdv true s)).torque = (update_performance p04 (withAdv false s)).torque ∧
    (update_performance p04 (withAdv true s)).thermal_efficiency = (update_performance p04 (withAdv false s)).thermal_efficiency ∧
    (update_performance p04 (withAdv true s)).fuel_consumption = 1.05 * (update_performance p04 (withAdv false s)).fuel_consumption ∧
    (update_performance p04 (withAdv true s)).brake_specific_fuel_consumption = (update_performance p04 (withAdv false s)).brake_specific_fuel_consumption ∧
    (update_performance p04 (withAdv true s)).co2_emissions = (update_performance p04 (withAdv false s)).co2_emissions ∧
    (update_performance p04 (withAdv true s)).nox_emissions = 1.05 * (update_performance p04 (withAdv false s)).nox_emissions ∧
    (update_performance p04 (withAdv true s)).volumetric_efficiency = (update_performance p04 (withAdv false s)).volumetric_efficiency ∧
    (update_performance p04 (withAdv true s)).engine_temperature = (update_performance p04 (withAdv false s)).engine_temperature := by
  refine ⟨?_, ?_, ?_, ?_, ?_, ?_, ?_, ?_, ?_⟩
  all_goals simp only [withAdv, withCeramic, withCylDeact, withDirectInj, withEcu, withEgr, withSmart, withTurbo, withVarComp, withVvt, withWhr, up_power, up_torque, up_thermal, up_fuel, up_bsfc, up_co2, up_nox, up_ve, up_temp, fuelOf, bsfcOf, noxOf, powerPre, pMult, tMult, vMult, thermalPre, wiThermal, wiNoxF, ceraDrop, tempAdjF, calculate_thermal_efficiency]
  all_goals simp [-mul_ite, -ite_mul]
  all_goals try ring
  all_goals try tauto

/-- Effect of enhanced_ecu: the documented power factor 1.05 lands and propagates to fuel and NOx; the documented fuel factor 0.95 is overwritten by the downstream recomputation (line 91) and never reaches the final state. -/
theorem upDiff_ecu (p04 : ℚ) (s : Engine) :
    (update_performance p04 (withEcu true s)).power_output = 1.05 * (update_performance p04 (withEcu false s)).power_output ∧
    (update_performance p04 (withEcu true s)).torque = (update_performance p04 (withEcu false s)).torque ∧
    (update_performance p04 (withEcu true s)).thermal_efficiency = (update_performance p04 (withEcu false s)).thermal_efficiency ∧
    (update_performance p04 (withEcu true s)).fuel_consumption = 1.05 * (update_performance p04 (withEcu false s)).fuel_consumption ∧
    (update_performance p04 (withEcu true s)).brake_specific_fuel_consumption = (update_performance p04 (withEcu false s)).brake_specific_fuel_consumption ∧
    (update_performance p04 (withEcu true s)).co2_emissions = (update_performance p04 (withEcu false s)).co2_emissions ∧
    (update_performance p04 (withEcu true s)).nox_emissions = 1.05 * (update_performance p04 (withEcu false s)).nox_emissions ∧
    (update_performance p04 (withEcu true s)).volumetric_efficiency = (update_performance p04 (withEcu false s)).volumetric_efficiency ∧
    (update_performance p04 (withEcu true s)).engine_temperature = (update_performance p04 (withEcu false s)).engine_temperature := by
  refine ⟨?_, ?_, ?_, ?_, ?_, ?_, ?_, ?_, ?_⟩
  all_goals simp only [withAdv, withCeramic, withCylDeact, withDirectInj, withEcu, withEgr, withSmart, withTurbo, withVarComp, withVvt, withWhr, up_power, up_torque, up_thermal, up_fuel, up_bsfc, up_co2, up_nox, up_ve, up_temp, fuelOf, bsfcOf, noxOf, powerPre, pMult, tMult, vMult, thermalPre, wiThermal, wiNoxF, ceraDrop, tempAdjF, calculate_thermal_efficiency]
  all_goals simp [-mul_ite, -ite_mul]
  all_goals try ring
  all_goals try tauto

/-- Effect of turbocharger: power gains 1.2 and volumetric efficiency gains 1.15 before the clamp, as documented, but fuel consumption and NOx also scale by 1.2 through the downstream recomputation. -/
theorem upDiff_turbo (p04 : ℚ) (s : Engine) :
    (update_performance p04 (withTurbo true s)).power_output = 1.2 * (update_performance p04 (withTurbo false s)).power_output ∧
    (update_performance p04 (withTurbo true s)).torque = (update_performance p04 (withTurbo false s)).torque ∧
    (update_performance p04 (withTurbo true s)).thermal_efficiency = (update_performance p04 (withTurbo false s)).thermal_efficiency ∧
    (update_performance p04 (withTurbo true s)).fuel_consumption = 1.2 * (update_performance p04 (withTurbo false s)).fuel_consumption ∧
    (update_performance p04 (withTurbo true s)).brake_specific_fuel_consumption = (update_performance p04 (withTurbo false s)).brake_specific_fuel_consumption ∧
    (update_performance p04 (withTurbo true s)).co2_emissions = (update_performance p04 (withTurbo false s)).co2_emissions ∧
    (update_performance p04 (withTurbo true s)).nox_emissions = 1.2 * (update_performance p04 (withTurbo false s)).nox_emissions ∧
    (update_performance p04 (withTurbo true s)).volumetric_efficiency = min (max (s.volumetric_efficiency * (1.15 * (if s.upgrades.variable_valve_timing then (1.1 : ℚ) else 1))) 0.7) 1 ∧
    (update_performance p04 (withTurbo true s)).engine_temperature = (update_performance p04 (withTurbo false s)).engine_temperature := by
  refine ⟨?_, ?_, ?_, ?_, ?_, ?_, ?_, ?_, ?_⟩
  all_goals simp only [withAdv, withCeramic, withCylDeact, withDirectInj, withEcu, withEgr, withSmart, withTurbo, withVarComp, withVvt, withWhr, up_power, up_torque, up_thermal, up_fuel, up_bsfc, up_co2, up_nox, up_ve, up_temp, fuelOf, bsfcOf, noxOf, powerPre, pMult, tMult, vMult, thermalPre, wiThermal, wiNoxF, ceraDrop, tempAdjF, calculate_thermal_efficiency]
  all_goals simp [-mul_ite, -ite_mul]
  all_goals try ring
  all_goals try tauto

/-- Effect of direct_injection: thermal efficiency gains its documented 1.05, but the documented fuel factor 0.9 is overwritten; the final fuel consumption instead shrinks by exactly 1/1.05 through the recomputation, dragging BSFC and CO2 with it. -/
theorem upDiff_di (p04 : ℚ) (s : Engine) :
    (update_performance p04 (withDirectInj true s)).power_output = (update_performance p04 (withDirectInj false s)).power_output ∧
    (update_performance p04 (withDirectInj true s)).torque = (update_performance p04 (withDirectInj false s)).torque ∧
    (update_performance p04 (withDirectInj true s)).thermal_efficiency = 1.05 * (update_performance p04 (withDirectInj false s)).thermal_efficiency ∧
    (update_performance p04 (withDirectInj true s)).fuel_consumption = (update_performance p04 (withDirectInj false s)).fuel_consumption / 1.05 ∧
    (update_performance p04 (withDirectInj true s)).brake_specific_fuel_consumption = (update_performance p04 (withDirectInj false s)).brake_specific_fuel_consumption / 1.05 ∧
    (update_performance p04 (withDirectInj true s)).co2_emissions = (update_performance p04 (withDirectInj false s)).co2_emissions / 1.05 ∧
    (update_performance p04 (withDirectInj true s)).nox_emissions = (update_performance p04 (withDirectInj false s)).nox_emissions ∧
    (update_performance p04 (withDirectInj true s)).volumetric_efficiency = (update_performance p04 (withDirectInj false s)).volumetric_efficiency ∧
    (update_performance p04 (withDirectInj true s)).engine_temperature = (update_performance p04 (withDirectInj false s)).engine_temperature := by
  have hp : powerPre (withDirectInj true s) * pMult (withDirectInj true s).upgrades =
      1 * (powerPre (withDirectInj false s) * pMult (withDirectInj false s).upgrades) := by
    simp only [withDirectInj, powerPre, pMult]
    simp [-mul_ite, -ite_mul]
  have ht : thermalPre p04 (withDirectInj true s).upgrades =
      1.05 * thermalPre p04 (withDirectInj false s).upgrades := by
    simp only [withDirectInj, thermalPre, tMult, calculate_thermal_efficiency]
    try simp [-mul_ite, -ite_mul]
    try ring
  have hf := fuelOf_scale p04 (withDirectInj true s) (withDirectInj false s) 1 1.05 hp ht
  have hb : bsfcOf p04 (withDirectInj true s) = bsfcOf p04 (withDirectInj false s) / 1.05 := by
    unfold bsfcOf
    rw [hf, hp]
    ring
  refine ⟨?_, ?_, ?_, ?_, ?_, ?_, ?_, ?_, ?_⟩
  · simp only [withDirectInj, up_power, powerPre, pMult]
    try simp [-mul_ite, -ite_mul]
  · simp only [withDirectInj, up_torque, powerPre]
    try simp [-mul_ite, -ite_mul]
  · simp only [withDirectInj, up_thermal, thermalPre, tMult, wiThermal, ceraDrop, tempAdjF,
      calculate_thermal_efficiency]
    try simp [-mul_ite, -ite_mul]
    try ring
  · rw [up_fuel, up_fuel, hf]
    try ring
  · rw [up_bsfc, up_bsfc, hb]
  · rw [up_co2, up_co2, hb]
    try ring
  · simp only [withDirectInj, up_nox, noxOf, powerPre, pMult, wiNoxF, ceraDrop]
    try simp [-mul_ite, -ite_mul]
  · simp only [withDirectInj, up_ve, vMult]
    try simp [-mul_ite, -ite_mul]
  · simp only [withDirectInj, up_temp, ceraDrop]
    try simp [-mul_ite, -ite_mul]

/-- Effect of smart_cooling: documented thermal factor 1.02, with the induced 1/1.02 on fuel, BSFC and CO2. -/
theorem upDiff_smart (p04 : ℚ) (s : Engine) :
    (update_performance p04 (withSmart true s)).power_output = (update_performance p04 (withSmart false s)).power_output ∧
    (update_performance p04 (withSmart true s)).torque = (update_performance p04 (withSmart false s)).torque ∧
    (update_performance p04 (withSmart true s)).thermal_efficiency = 1.02 * (update_performance p04 (withSmart false s)).thermal_efficiency ∧
    (update_performance p04 (withSmart true s)).fuel_consumption = (update_performance p04 (withSmart false s)).fuel_consumption / 1.02 ∧
    (update_performance p04 (withSmart true s)).brake_specific_fuel_consumption = (update_performance p04 (withSmart false s)).brake_specific_fuel_consumption / 1.02 ∧
    (update_performance p04 (withSmart true s)).co2_emissions = (update_performance p04 (withSmart false s)).co2_emissions / 1.02 ∧
    (update_performance p04 (withSmart true s)).nox_emissions = (update_performance p04 (withSmart false s)).nox_emissions ∧
    (update_performance p04 (withSmart true s)).volumetric_efficiency = (update_performance p04 (withSmart false s)).volumetric_efficiency ∧
    (update_performance p04 (withSmart true s)).engine_temperature = (update_performance p04 (withSmart false s)).engine_temperature := by
  have hp : powerPre (withSmart true s) * pMult (withSmart true s).upgrades =
      1 * (powerPre (withSmart false s) * pMult (withSmart false s).upgrades) := by
    simp only [withSmart, powerPre, pMult]
    simp [-mul_ite, -ite_mul]
  have ht : thermalPre p04 (withSmart true s).upgrades =
      1.02 * thermalPre p04 (withSmart false s).upgrades := by
    simp only [withSmart, thermalPre, tMult, calculate_thermal_efficiency]
    try simp [-mul_ite, -ite_mul]
    try ring
  have hf := fuelOf_scale p04 (withSmart true s) (withSmart false s) 1 1.02 hp ht
  have hb : bsfcOf p04 (withSmart true s) = bsfcOf p04 (withSmart false s) / 1.02 := by
    unfold bsfcOf
    rw [hf, hp]
    ring
  refine ⟨?_, ?_, ?_, ?_, ?_, ?_, ?_, ?_, ?_⟩
  · simp only [withSmart, up_power, powerPre, pMult]
    try simp [-mul_ite, -ite_mul]
  · simp only [withSmart, up_torque, powerPre]
    try simp [-mul_ite, -ite_mul]
  · simp only [withSmart, up_thermal, thermalPre, tMult, wiThermal, ceraDrop, tempAdjF,
      calculate_thermal_efficiency]
    try simp [-mul_ite, -ite_mul]
    try ring
  · rw [up_fuel, up_fuel, hf]
    try ring
  · rw [up_bsfc, up_bsfc, hb]
  · rw [up_co2, up_co2, hb]
    try ring
  · simp only [withSmart, up_nox, noxOf, powerPre, pMult, wiNoxF, ceraDrop]
    try simp [-mul_ite, -ite_mul]
  · simp only [withSmart, up_ve, vMult]
    try simp [-mul_ite, -ite_mul]
  · simp only [withSmart, up_temp, ceraDrop]
    try simp [-mul_ite, -ite_mul]

/-- Effect of variable_compression: documented thermal factor 1.08; the documented fuel factor 0.93 is overwritten and fuel instead shrinks by 1/1.08 with BSFC and CO2. -/
theorem upDiff_vc (p04 : ℚ) (s : Engine) :
    (update_performance p04 (withVarComp true s)).power_output = (update_performance p04 (withVarComp false s)).power_output ∧
    (update_performance p04 (withVarComp true s)).torque = (update_performance p04 (withVarComp false s)).torque ∧
    (update_performance p04 (withVarComp true s)).thermal_efficiency = 1.08 * (update_performance p04 (withVarComp false s)).thermal_efficiency ∧
    (update_performance p04 (withVarComp true s)).fuel_consumption = (update_performance p04 (withVarComp false s)).fuel_consumption / 1.08 ∧
    (update_performance p04 (withVarComp true s)).brake_specific_fuel_consumption = (update_performance p04 (withVarComp false s)).brake_specific_fuel_consumption / 1.08 ∧
    (update_performance p04 (withVarComp true s)).co2_emissions = (update_performance p04 (withVarComp false s)).co2_emissions / 1.08 ∧
    (update_performance p04 (withVarComp true s)).nox_emissions = (update_performance p04 (withVarComp false s)).nox_emissions ∧
    (update_performance p04 (withVarComp true s)).volumetric_efficiency = (update_performance p04 (withVarComp false s)).volumetric_efficiency ∧
    (update_performance p04 (withVarComp true s)).engine_temperature = (update_performance p04 (withVarComp false s)).engine_temperature := by
  have hp : powerPre (withVarComp true s) * pMult (withVarComp true s).upgrades =
      1 * (powerPre (withVarComp false s) * pMult (withVarComp false s).upgrades) := by
    simp only [withVarComp, powerPre, pMult]
    simp [-mul_ite, -ite_mul]
  have ht : thermalPre p04 (withVarComp true s).upgrades =
      1.08 * thermalPre p04 (withVarComp false s).upgrades := by
    simp only [withVarComp, thermalPre, tMult, calculate_thermal_efficiency]
    try simp [-mul_ite, -ite_mul]
    try ring
  have hf := fuelOf_scale p04 (withVarComp true s) (withVarComp false s) 1 1.08 hp ht
  have hb : bsfcOf p04 (withVarComp true s) = bsfcOf p04 (withVarComp false s) / 1.08 := by
    unfold bsfcOf
    rw [hf, hp]
    ring
  refine ⟨?_, ?_, ?_, ?_, ?_, ?_, ?_, ?_, ?_⟩
  · simp only [withVarComp, up_power, powerPre, pMult]
    try simp [-mul_ite, -ite_mul]
  · simp only [withVarComp, up_torque, powerPre]
    try simp [-mul_ite, -ite_mul]
  · simp only [withVarComp, up_thermal, thermalPre, tMult, wiThermal, ceraDrop, tempAdjF,
      calculate_thermal_efficiency]
    try simp [-mul_ite, -ite_mul]
    try ring
  · rw [up_fuel, up_fuel, hf]
    try ring
  · rw [up_bsfc, up_bsfc, hb]
  · rw [up_co2, up_co2, hb]
    try ring
  · simp only [withVarComp, up_nox, noxOf, powerPre, pMult, wiNoxF, ceraDrop]
    try simp [-mul_ite, -ite_mul]
  · simp only [withVarComp, up_ve, vMult]
    try simp [-mul_ite, -ite_mul]
  · simp only [withVarComp, up_temp, ceraDrop]
    try simp [-mul_ite, -ite_mul]

/-- Effect of waste_heat_recovery: documented thermal factor 1.05 with the induced 1/1.05 on fuel, BSFC and CO2. -/
theorem upDiff_whr (p04 : ℚ) (s : Engine) :
    (update_performance p04 (withWhr true s)).power_output = (update_performance p04 (withWhr false s)).power_output ∧
    (update_performance p04 (withWhr true s)).torque = (update_performance p04 (withWhr false s)).torque ∧
    (update_performance p04 (withWhr true s)).thermal_efficiency = 1.05 * (update_performance p04 (withWhr false s)).thermal_efficiency ∧
    (update_performance p04 (withWhr true s)).fuel_consumption = (update_performance p04 (withWhr false s)).fuel_consumption / 1.05 ∧
    (update_performance p04 (withWhr true s)).brake_specific_fuel_consumption = (update_performance p04 (withWhr false s)).brake_specific_fuel_consumption / 1.05 ∧
    (update_performance p04 (withWhr true s)).co2_emissions = (update_performance p04 (withWhr false s)).co2_emissions / 1.05 ∧
    (update_performance p04 (withWhr true s)).nox_emissions = (update_performance p04 (withWhr false s)).nox_emissions ∧
    (update_performance p04 (withWhr true s)).volumetric_efficiency = (update_performance p04 (withWhr false s)).volumetric_efficiency ∧
    (update_performance p04 (withWhr true s)).engine_temperature = (update_performance p04 (withWhr false s)).engine_temperature := by
  have hp : powerPre (withWhr true s) * pMult (withWhr true s).upgrades =
      1 * (powerPre (withWhr false s) * pMult (withWhr false s).upgrades) := by
    simp only [withWhr, powerPre, pMult]
    simp [-mul_ite, -ite_mul]
  have ht : thermalPre p04 (withWhr true s).upgrades =
      1.05 * thermalPre p04 (withWhr false s).upgrades := by
    simp only [withWhr, thermalPre, tMult, calculate_thermal_efficiency]
    try simp [-mul_ite, -ite_mul]
    try ring
  have hf := fuelOf_scale p04 (withWhr true s) (withWhr false s) 1 1.05 hp ht
  have hb : bsfcOf p04 (withWhr true s) = bsfcOf p04 (withWhr false s) / 1.05 := by
    unfold bsfcOf
    rw [hf, hp]
    ring
  refine ⟨?_, ?_, ?_, ?_, ?_, ?_, ?_, ?_, ?_⟩
  · simp only [withWhr, up_power, powerPre, pMult]
    try simp [-mul_ite, -ite_mul]
  · simp only [withWhr, up_torque, powerPre]
    try simp [-mul_ite, -ite_mul]
  · simp only [withWhr, up_thermal, thermalPre, tMult, wiThermal, ceraDrop, tempAdjF,
      calculate_thermal_efficiency]
    try simp [-mul_ite, -ite_mul]
    try ring
  · rw [up_fuel, up_fuel, hf]
    try ring
  · rw [up_bsfc, up_bsfc, hb]
  · rw [up_co2, up_co2, hb]
    try ring
  · simp only [withWhr, up_nox, noxOf, powerPre, pMult, wiNoxF, ceraDrop]
    try simp [-mul_ite, -ite_mul]
  · simp only [withWhr, up_ve, vMult]
    try simp [-mul_ite, -ite_mul]
  · simp only [withWhr, up_temp, ceraDrop]
    try simp [-mul_ite, -ite_mul]

/-- Effect of exhaust_gas_recirculation: none at all.  Its documented NOx factor 0.7 runs inside the loop but line 97 recomputes NOx afterwards, so every final metric is unchanged. -/
theorem upDiff_egr (p04 : ℚ) (s : Engine) :
    (update_performance p04 (withEgr true s)).power_output = (update_performance p04 (withEgr false s)).power_output ∧
    (update_performance p04 (withEgr true s)).torque = (update_performance p04 (withEgr false s)).torque ∧
    (update_performance p04 (withEgr true s)).thermal_efficiency = (update_performance p04 (withEgr false s)).thermal_efficiency ∧
    (update_performance p04 (withEgr true s)).fuel_consumption = (update_performance p04 (withEgr false s)).fuel_consumption ∧
    (update_performance p04 (withEgr true s)).brake_specific_fuel_consumption = (update_performance p04 (withEgr false s)).brake_specific_fuel_consumption ∧
    (update_performance p04 (withEgr true s)).co2_emissions = (update_performance p04 (withEgr false s)).co2_emissions ∧
    (update_performance p04 (withEgr true s)).nox_emissions = (update_performance p04 (withEgr false s)).nox_emissions ∧
    (update_performance p04 (withEgr true s)).volumetric_efficiency = (update_performance p04 (withEgr false s)).volumetric_efficiency ∧
    (update_performance p04 (withEgr true s)).engine_temperature = (update_performance p04 (withEgr false s)).engine_temperature := by
  refine ⟨?_, ?_, ?_, ?_, ?_, ?_, ?_, ?_, ?_⟩
  all_goals simp only [withAdv, withCeramic, withCylDeact, withDirectInj, withEcu, withEgr, withSmart, withTurbo, withVarComp, withVvt, withWhr, up_power, up_torque, up_thermal, up_fuel, up_bsfc, up_co2, up_nox, up_ve, up_temp, fuelOf, bsfcOf, noxOf, powerPre, pMult, tMult, vMult, thermalPre, wiThermal, wiNoxF, ceraDrop, tempAdjF, calculate_thermal_efficiency]
  all_goals simp [-mul_ite, -ite_mul]
  all_goals try ring
  all_goals try tauto

/-- Effect of cylinder_deactivation: none at all.  Its documented fuel factor 0.92 is overwritten by line 91, so every final metric is unchanged. -/
theorem upDiff_cd (p04 : ℚ) (s : Engine) :
    (update_performance p04 (withCylDeact true s)).power_output = (update_performance p04 (withCylDeact false s)).power_output ∧
    (update_performance p04 (withCylDeact true s)).torque = (update_performance p04 (withCylDeact false s)).torque ∧
    (update_performance p04 (withCylDeact true s)).thermal_efficiency = (update_performance p04 (withCylDeact false s)).thermal_efficiency ∧
    (update_performance p04 (withCylDeact true s)).fuel_consumption = (update_performance p04 (withCylDeact false s)).fuel_consumption ∧
    (update_performance p04 (withCylDeact true s)).brake_specific_fuel_consumption = (update_performance p04 (withCylDeact false s)).brake_specific_fuel_consumption ∧
    (update_performance p04 (withCylDeact true s)).co2_emissions = (update_performance p04 (withCylDeact false s)).co2_emissions ∧
    (update_performance p04 (withCylDeact true s)).nox_emissions = (update_performance p04 (withCylDeact false s)).nox_emissions ∧
    (update_performance p04 (withCylDeact true s)).volumetric_efficiency = (update_performance p04 (withCylDeact false s)).volumetric_efficiency ∧
    (update_performance p04 (withCylDeact true s)).engine_temperature = (update_performance p04 (withCylDeact false s)).engine_temperature := by
  refine ⟨?_, ?_, ?_, ?_, ?_, ?_, ?_, ?_, ?_⟩
  all_goals simp only [withAdv, withCeramic, withCylDeact, withDirectInj, withEcu, withEgr, withSmart, withTurbo, withVarComp, withVvt, withWhr, up_power, up_torque, up_thermal, up_fuel, up_bsfc, up_co2, up_nox, up_ve, up_temp, fuelOf, bsfcOf, noxOf, powerPre, pMult, tMult, vMult, thermalPre, wiThermal, wiNoxF, ceraDrop, tempAdjF, calculate_thermal_efficiency]
  all_goals simp [-mul_ite, -ite_mul]
  all_goals try ring
  all_goals try tauto

/-- Effect of variable_valve_timing: volumetric efficiency gains its documented 1.1 before the clamp; the documented fuel factor 0.95 is overwritten and no other metric moves. -/
theorem upDiff_vvt (p04 : ℚ) (s : Engine) :
    (update_performance p04 (withVvt true s)).power_output = (update_performance p04 (withVvt false s)).power_output ∧
    (update_performance p04 (withVvt true s)).torque = (update_performance p04 (withVvt false s)).torque ∧
    (update_performance p04 (withVvt true s)).thermal_efficiency = (update_performance p04 (withVvt false s)).thermal_efficiency ∧
    (update_performance p04 (withVvt true s)).fuel_consumption = (update_performance p04 (withVvt false s)).fuel_consumption ∧
    (update_performance p04 (withVvt true s)).brake_specific_fuel_consumption = (update_performance p04 (withVvt false s)).brake_specific_fuel_consumption ∧
    (update_performance p04 (withVvt true s)).co2_emissions = (update_performance p04 (withVvt false s)).co2_emissions ∧
    (update_performance p04 (withVvt true s)).nox_emissions = (update_performance p04 (withVvt false s)).nox_emissions ∧
    (update_performance p04 (withVvt true s)).volumetric_efficiency = min (max (s.volumetric_efficiency * ((if s.upgrades.turbocharger then (1.15 : ℚ) else 1) * 1.1)) 0.7) 1 ∧
    (update_performance p04 (withVvt true s)).engine_temperature = (update_performance p04 (withVvt false s)).engine_temperature := by
  refine ⟨?_, ?_, ?_, ?_, ?_, ?_, ?_, ?_, ?_⟩
  all_goals simp only [withAdv, withCeramic, withCylDeact, withDirectInj, withEcu, withEgr, withSmart, withTurbo, withVarComp, withVvt, withWhr, up_power, up_torque, up_thermal, up_fuel, up_bsfc, up_co2, up_nox, up_ve, up_temp, fuelOf, bsfcOf, noxOf, powerPre, pMult, tMult, vMult, thermalPre, wiThermal, wiNoxF, ceraDrop, tempAdjF, calculate_thermal_efficiency]
  all_goals simp [-mul_ite, -ite_mul]
  all_goals try ring
  all_goals try tauto

/-- Effect of ceramic_coating: thermal efficiency gains its documented
1.03 (shown here when neither run crosses the 10-degree deviation
threshold), the temperature drops by the documented 5 degrees, and the
downstream recomputations shift fuel, BSFC, CO2 and NOx as well. -/
theorem upDiff_ceramic (p04 : ℚ) (s : Engine) :
    (update_performance p04 (withCeramic true s)).power_output = (update_performance p04 (withCeramic false s)).power_output ∧
    (update_performance p04 (withCeramic true s)).torque = (update_performance p04 (withCeramic false s)).torque ∧
    (|s.engine_temperature - s.optimal_temperature| ≤ 10 →
      |s.engine_temperature - 5 - s.optimal_temperature| ≤ 10 →
      (update_performance p04 (withCeramic true s)).thermal_efficiency = 1.03 * (update_performance p04 (withCeramic false s)).thermal_efficiency) ∧
    (update_performance p04 (withCeramic true s)).fuel_consumption = (update_performance p04 (withCeramic false s)).fuel_consumption / 1.03 ∧
    (update_performance p04 (withCeramic true s)).brake_specific_fuel_consumption = (update_performance p04 (withCeramic false s)).brake_specific_fuel_consumption / 1.03 ∧
    (update_performance p04 (withCeramic true s)).co2_emissions = (update_performance p04 (withCeramic false s)).co2_emissions / 1.03 ∧
    (update_performance p04 (withCeramic true s)).nox_emissions = (update_performance p04 (withCeramic false s)).nox_emissions - 0.0005 * (update_performance p04 (withCeramic false s)).power_output *
      (if s.water_injection_active then (0.8 : ℚ) else 1) ∧
    (update_performance p04 (withCeramic true s)).volumetric_efficiency = (update_performance p04 (withCeramic false s)).volumetric_efficiency ∧
    (update_performance p04 (withCeramic true s)).engine_temperature = (update_performance p04 (withCeramic false s)).engine_temperature - 5 := by
  have hp : powerPre (withCeramic true s) * pMult (withCeramic true s).upgrades =
      1 * (powerPre (withCeramic false s) * pMult (withCeramic false s).upgrades) := by
    simp only [withCeramic, powerPre, pMult]
    try simp [-mul_ite, -ite_mul]
  have ht : thermalPre p04 (withCeramic true s).upgrades =
      1.03 * thermalPre p04 (withCeramic false s).upgrades := by
    simp only [withCeramic, thermalPre, tMult, calculate_thermal_efficiency]
    try simp [-mul_ite, -ite_mul]
    try ring
  have hf := fuelOf_scale p04 (withCeramic true s) (withCeramic false s) 1 1.03 hp ht
  have hb : bsfcOf p04 (withCeramic true s) = bsfcOf p04 (withCeramic false s) / 1.03 := by
    unfold bsfcOf
    rw [hf, hp]
    ring
  refine ⟨?_, ?_, ?_, ?_, ?_, ?_, ?_, ?_, ?_⟩
  · simp only [withCeramic, up_power, powerPre, pMult]
    try simp [-mul_ite, -ite_mul]
  · simp only [withCeramic, up_torque, powerPre]
    try simp [-mul_ite, -ite_mul]
  · intro h1 h2
    simp only [withCeramic, up_thermal, thermalPre, tMult, wiThermal, ceraDrop, tempAdjF,
      calculate_thermal_efficiency]
    simp only [if_pos, if_neg, eq_self_iff_true]
    simp [-mul_ite, -ite_mul, sub_zero]
    rw [if_neg (not_lt.mpr h2), if_neg (not_lt.mpr h1)]
    ring
  · rw [up_fuel, up_fuel, hf]
    try ring
  · rw [up_bsfc, up_bsfc, hb]
  · rw [up_co2, up_co2, hb]
    try ring
  · simp only [withCeramic, up_nox, up_power, noxOf, powerPre, pMult, wiNoxF, ceraDrop]
    try simp [-mul_ite, -ite_mul]
    try ring
  · simp only [withCeramic, up_ve, vMult]
    try simp [-mul_ite, -ite_mul]
  · simp only [withCeramic, up_temp, ceraDrop]
    try simp [-mul_ite, -ite_mul]
    try ring

/-- C3 (amended): applying a known upgrade sets its flag and triggers
one full recomputation, which leaves rpm, gearbox and transmission mode
untouched; the documented multiplicative factors on power, thermal
efficiency and volumetric efficiency (then clamped) take effect, but
the documented factors on fuel consumption (direct_injection 0.9,
variable_valve_timing 0.95, enhanced_ecu 0.95, cylinder_deactivation
0.92, variable_compression 0.93) and on NOx (exhaust_gas_recirculation
0.7) are overwritten by the downstream recomputation of fuel, BSFC, CO2
and NOx, so those upgrades do not affect the overwritten metrics at
all; conversely, upgrades that change power or thermal efficiency also
change fuel, BSFC, CO2 and NOx exactly as recomputed, and
ceramic_coating lowers the temperature by 5 in each recomputation,
shifting NOx and (past the deviation threshold) thermal efficiency. -/
theorem c3_amended (p04 : ℚ) (s : Engine) :
    (∀ u : String, u ∈ knownUpgradeNames →
      (apply_upgrade p04 u s).1 =
          update_performance p04 { s with upgrades := setFlagU u s.upgrades } ∧
        (apply_upgrade p04 u s).1.rpm = s.rpm ∧
        (apply_upgrade p04 u s).1.gearbox = s.gearbox ∧
        (apply_upgrade p04 u s).1.transmission_mode = s.transmission_mode) ∧
    ((update_performance p04 (withAdv true s)).power_output = 1.05 * (update_performance p04 (withAdv false s)).power_output ∧
     (update_performance p04 (withAdv true s)).torque = (update_performance p04 (withAdv false s)).torque ∧
     (update_performance p04 (withAdv true s)).thermal_efficiency = (update_performance p04 (withAdv false s)).thermal_efficiency ∧
     (update_performance p04 (withAdv true s)).fuel_consumption = 1.05 * (update_performance p04 (withAdv false s)).fuel_consumption ∧
     (update_performance p04 (withAdv true s)).brake_specific_fuel_consumption = (update_performance p04 (withAdv false s)).brake_specific_fuel_consumption ∧
     (update_performance p04 (withAdv true s)).co2_emissions = (update_performance p04 (withAdv false s)).co2_emissions ∧
     (update_performance p04 (withAdv true s)).nox_emissions = 1.05 * (update_performance p04 (withAdv false s)).nox_emissions ∧
     (update_performance p04 (withAdv true s)).volumetric_efficiency = (update_performance p04 (withAdv false s)).volumetric_efficiency ∧
     (update_performance p04 (withAdv true s)).engine_temperature = (update_performance p04 (withAdv false s)).engine_temperature) ∧
    ((update_performance p04 (withEcu true s)).power_output = 1.05 * (update_performance p04 (withEcu false s)).power_output ∧
     (update_performance p04 (withEcu true s)).torque = (update_performance p04 (withEcu false s)).torque ∧
     (update_performance p04 (withEcu true s)).thermal_efficiency = (update_performance p04 (withEcu false s)).thermal_efficiency ∧
     (update_performance p04 (withEcu true s)).fuel_consumption = 1.05 * (update_performance p04 (withEcu false s)).fuel_consumption ∧
     (update_performance p04 (withEcu true s)).brake_specific_fuel_consumption = (update_performance p04 (withEcu false s)).brake_specific_fuel_consumption ∧
     (update_performance p04 (withEcu true s)).co2_emissions = (update_performance p04 (withEcu false s)).co2_emissions ∧
     (update_performance p04 (withEcu true s)).nox_emissions = 1.05 * (update_performance p04 (withEcu false s)).nox_emissions ∧
     (update_performance p04 (withEcu true s)).volumetric_efficiency = (update_performance p04 (withEcu false s)).volumetric_efficiency ∧
     (update_performance p04 (withEcu true s)).engine_temperature = (update_performance p04 (withEcu false s)).engine_temperature) ∧
    ((update_performance p04 (withTurbo true s)).power_output = 1.2 * (update_performance p04 (withTurbo false s)).power_output ∧
     (update_performance p04 (withTurbo true s)).torque = (update_performance p04 (withTurbo false s)).torque ∧
     (update_performance p04 (withTurbo true s)).thermal_efficiency = (update_performance p04 (withTurbo false s)).thermal_efficiency ∧
     (update_performance p04 (withTurbo true s)).fuel_consumption = 1.2 * (update_performance p04 (withTurbo false s)).fuel_consumption ∧
     (update_performance p04 (withTurbo true s)).brake_specific_fuel_consumption = (update_performance p04 (withTurbo false s)).brake_specific_fuel_consumption ∧
     (update_performance p04 (withTurbo true s)).co2_emissions = (update_performance p04 (withTurbo false s)).co2_emissions ∧
     (update_performance p04 (withTurbo true s)).nox_emissions = 1.2 * (update_performance p04 (withTurbo false s)).nox_emissions ∧
     (update_performance p04 (withTurbo true s)).volumetric_efficiency = min (max (s.volumetric_efficiency * (1.15 * (if s.upgrades.variable_valve_timing then (1.1 : ℚ) else 1))) 0.7) 1 ∧
     (update_performance p04 (withTurbo true s)).engine_temperature = (update_performance p04 (withTurbo false s)).engine_temperature) ∧
    ((update_performance p04 (withDirectInj true s)).power_output = (update_performance p04 (withDirectInj false s)).power_output ∧
     (update_performance p04 (withDirectInj true s)).torque = (update_performance p04 (withDirectInj false s)).torque ∧
     (update_performance p04 (withDirectInj true s)).thermal_efficiency = 1.05 * (update_performance p04 (withDirectInj false s)).thermal_efficiency ∧
     (update_performance p04 (withDirectInj true s)).fuel_consumption = (update_performance p04 (withDirectInj false s)).fuel_consumption / 1.05 ∧
     (update_performance p04 (withDirectInj true s)).brake_specific_fuel_consumption = (update_performance p04 (withDirectInj false s)).brake_specific_fuel_consumption / 1.05 ∧
     (update_performance p04 (withDirectInj true s)).co2_emissions = (update_performance p04 (withDirectInj false s)).co2_emissions / 1.05 ∧
     (update_performance p04 (withDirectInj true s)).nox_emissions = (update_performance p04 (withDirectInj false s)).nox_emissions ∧
     (update_performance p04 (withDirectInj true s)).volumetric_efficiency = (update_performance p04 (withDirectInj false s)).volumetric_efficiency ∧
     (update_performance p04 (withDirectInj true s)).engine_temperature = (update_performance p04 (withDirectInj false s)).engine_temperature) ∧
    ((update_performance p04 (withSmart true s)).power_output = (update_performance p04 (withSmart false s)).power_output ∧
     (update_performance p04 (withSmart true s)).torque = (update_performance p04 (withSmart false s)).torque ∧
     (update_performance p04 (withSmart true s)).thermal_efficiency = 1.02 * (update_performance p04 (withSmart false s)).thermal_efficiency ∧
     (update_performance p04 (withSmart true s)).fuel_consumption = (update_performance p04 (withSmart false s)).fuel_consumption / 1.02 ∧
     (update_performance p04 (withSmart true s)).brake_specific_fuel_consumption = (update_performance p04 (withSmart false s)).brake_specific_fuel_consumption / 1.02 ∧
     (update_performance p04 (withSmart true s)).co2_emissions = (update_performance p04 (withSmart false s)).co2_emissions / 1.02 ∧
     (update_performance p04 (withSmart true s)).nox_emissions = (update_performance p04 (withSmart false s)).nox_emissions ∧
     (update_performance p04 (withSmart true s)).volumetric_efficiency = (update_performance p04 (withSmart false s)).volumetric_efficiency ∧
     (update_performance p04 (withSmart true s)).engine_temperature = (update_performance p04 (withSmart false s)).engine_temperature) ∧
    ((update_performance p04 (withVarComp true s)).power_output = (update_performance p04 (withVarComp false s)).power_output ∧
     (update_performance p04 (withVarComp true s)).torque = (update_performance p04 (withVarComp false s)).torque ∧
     (update_performance p04 (withVarComp true s)).thermal_efficiency = 1.08 * (update_performance p04 (withVarComp false s)).thermal_efficiency ∧
     (update_performance p04 (withVarComp true s)).fuel_consumption = (update_performance p04 (withVarComp false s)).fuel_consumption / 1.08 ∧
     (update_performance p04 (withVarComp true s)).brake_specific_fuel_consumption = (update_performance p04 (withVarComp false s)).brake_specific_fuel_consumption / 1.08 ∧
     (update_performance p04 (withVarComp true s)).co2_emissions = (update_performance p04 (withVarComp false s)).co2_emissions / 1.08 ∧
     (update_performance p04 (withVarComp true s)).nox_emissions = (update_performance p04 (withVarComp false s)).nox_emissions ∧
     (update_performance p04 (withVarComp true s)).volumetric_efficiency = (update_performance p04 (withVarComp false s)).volumetric_efficiency ∧
     (update_performance p04 (withVarComp true s)).engine_temperature = (update_performance p04 (withVarComp false s)).engine_temperature) ∧
    ((update_performance p04 (withWhr true s)).power_output = (update_performance p04 (withWhr false s)).power_output ∧
     (update_performance p04 (withWhr true s)).torque = (update_performance p04 (withWhr false s)).torque ∧
     (update_performance p04 (withWhr true s)).thermal_efficiency = 1.05 * (update_performance p04 (withWhr false s)).thermal_efficiency ∧
     (update_performance p04 (withWhr true s)).fuel_consumption = (update_performance p04 (withWhr false s)).fuel_consumption / 1.05 ∧
     (update_performance p04 (withWhr true s)).brake_specific_fuel_consumption = (update_performance p04 (withWhr false s)).brake_specific_fuel_consumption / 1.05 ∧
     (update_performance p04 (withWhr true s)).co2_emissions = (update_performance p04 (withWhr false s)).co2_emissions / 1.05 ∧
     (update_performance p04 (withWhr true s)).nox_emissions = (update_performance p04 (withWhr false s)).nox_emissions ∧
     (update_performance p04 (withWhr true s)).volumetric_efficiency = (update_performance p04 (withWhr false s)).volumetric_efficiency ∧
     (update_performance p04 (withWhr true s)).engine_temperature = (update_performance p04 (withWhr false s)).engine_temperature) ∧
    ((update_performance p04 (withEgr true s)).power_output = (update_performance p04 (withEgr false s)).power_output ∧
     (update_performance p04 (withEgr true s)).torque = (update_performance p04 (withEgr false s)).torque ∧
     (update_performance p04 (withEgr true s)).thermal_efficiency = (update_performance p04 (withEgr false s)).thermal_efficiency ∧
     (update_performance p04 (withEgr true s)).fuel_consumption = (update_performance p04 (withEgr false s)).fuel_consumption ∧
     (update_performance p04 (withEgr true s)).brake_specific_fuel_consumption = (update_performance p04 (withEgr false s)).brake_specific_fuel_consumption ∧
     (update_performance p04 (withEgr true s)).co2_emissions = (update_performance p04 (withEgr false s)).co2_emissions ∧
     (update_performance p04 (withEgr true s)).nox_emissions = (update_performance p04 (withEgr false s)).nox_emissions ∧
     (update_performance p04 (withEgr true s)).volumetric_efficiency = (update_performance p04 (withEgr false s)).volumetric_efficiency ∧
     (update_performance p04 (withEgr true s)).engine_temperature = (update_performance p04 (withEgr false s)).engine_temperature) ∧
    ((update_performance p04 (withCylDeact true s)).power_output = (update_performance p04 (withCylDeact false s)).power_output ∧
     (update_performance p04 (withCylDeact true s)).torque = (update_performance p04 (withCylDeact false s)).torque ∧
     (update_performance p04 (withCylDeact true s)).thermal_efficiency = (update_performance p04 (withCylDeact false s)).thermal_efficiency ∧
     (update_performance p04 (withCylDeact true s)).fuel_consumption = (update_performance p04 (withCylDeact false s)).fuel_consumption ∧
     (update_performance p04 (withCylDeact true s)).brake_specific_fuel_consumption = (update_performance p04 (withCylDeact false s)).brake_specific_fuel_consumption ∧
     (update_performance p04 (withCylDeact true s)).co2_emissions = (update_performance p04 (withCylDeact false s)).co2_emissions ∧
     (update_performance p04 (withCylDeact true s)).nox_emissions = (update_performance p04 (withCylDeact false s)).nox_emissions ∧
     (update_performance p04 (withCylDeact true s)).volumetric_efficiency = (update_performance p04 (withCylDeact false s)).volumetric_efficiency ∧
     (update_performance p04 (withCylDeact true s)).engine_temperature = (update_performance p04 (withCylDeact false s)).engine_temperature) ∧
    ((update_performance p04 (withVvt true s)).power_output = (update_performance p04 (withVvt false s)).power_output ∧
     (update_performance p04 (withVvt true s)).torque = (update_performance p04 (withVvt false s)).torque ∧
     (update_performance p04 (withVvt true s)).thermal_efficiency = (update_performance p04 (withVvt false s)).thermal_efficiency ∧
     (update_performance p04 (withVvt true s)).fuel_consumption = (update_performance p04 (withVvt false s)).fuel_consumption ∧
     (update_performance p04 (withVvt true s)).brake_specific_fuel_consumption = (update_performance p04 (withVvt false s)).brake_specific_fuel_consumption ∧
     (update_performance p04 (withVvt true s)).co2_emissions = (update_performance p04 (withVvt false s)).co2_emissions ∧
     (update_performance p04 (withVvt true s)).nox_emissions = (update_performance p04 (withVvt false s)).nox_emissions ∧
     (update_performance p04 (withVvt true s)).volumetric_efficiency = min (max (s.volumetric_efficiency * ((if s.upgrades.turbocharger then (1.15 : ℚ) else 1) * 1.1)) 0.7) 1 ∧
     (update_performance p04 (withVvt true s)).engine_temperature = (update_performance p04 (withVvt false s)).engine_temperature) ∧
    ((update_performance p04 (withCeramic true s)).power_output = (update_performance p04 (withCeramic false s)).power_output ∧
    (update_performance p04 (withCeramic true s)).torque = (update_performance p04 (withCeramic false s)).torque ∧
    (|s.engine_temperature - s.optimal_temperature| ≤ 10 →
      |s.engine_temperature - 5 - s.optimal_temperature| ≤ 10 →
      (update_performance p04 (withCeramic true s)).thermal_efficiency = 1.03 * (update_performance p04 (withCeramic false s)).thermal_efficiency) ∧
    (update_performance p04 (withCeramic true s)).fuel_consumption = (update_performance p04 (withCeramic false s)).fuel_consumption / 1.03 ∧
    (update_performance p04 (withCeramic true s)).brake_specific_fuel_consumption = (update_performance p04 (withCeramic false s)).brake_specific_fuel_consumption / 1.03 ∧
    (update_performance p04 (withCeramic true s)).co2_emissions = (update_performance p04 (withCeramic false s)).co2_emissions / 1.03 ∧
    (update_performance p04 (withCeramic true s)).nox_emissions = (update_performance p04 (withCeramic false s)).nox_emissions - 0.0005 * (update_performance p04 (withCeramic false s)).power_output *
      (if s.water_injection_active then (0.8 : ℚ) else 1) ∧
    (update_performance p04 (withCeramic true s)).volumetric_efficiency = (update_performance p04 (withCeramic false s)).volumetric_efficiency ∧
    (update_performance p04 (withCeramic true s)).engine_temperature = (update_performance p04 (withCeramic false s)).engine_temperature - 5) := by
  refine ⟨?_, upDiff_adv p04 s, upDiff_ecu p04 s, upDiff_turbo p04 s, upDiff_di p04 s,
    upDiff_smart p04 s, upDiff_vc p04 s, upDiff_whr p04 s, upDiff_egr p04 s, upDiff_cd p04 s,
    upDiff_vvt p04 s, upDiff_ceramic p04 s⟩
  intro u hu
  unfold apply_upgrade
  rw [if_pos hu]
  exact ⟨rfl, by simp [up_rpm], by simp [up_gearbox], by simp [up_mode]⟩

theorem init_upgrades (p04 : ℚ) : (initialEngine p04).upgrades = allOff := by
  simp [initialEngine, update_vehicle_speed, up_upgrades, baseEngine]

theorem init_mep (p04 : ℚ) : (initialEngine p04).mean_effective_pressure = 1000000 := by
  simp [initialEngine, update_vehicle_speed, up_eq, baseEngine]

theorem init_bore (p04 : ℚ) : (initialEngine p04).bore = 0.086 := by
  simp [initialEngine, update_vehicle_speed, up_eq, baseEngine]

theorem init_stroke (p04 : ℚ) : (initialEngine p04).stroke = 0.086 := by
  simp [initialEngine, update_vehicle_speed, up_eq, baseEngine]

theorem init_cyl (p04 : ℚ) : (initialEngine p04).num_cylinders = 3 := by
  simp [initialEngine, update_vehicle_speed, up_eq, baseEngine]

/-- C3 (counterexample): from the freshly constructed engine, applying
"turbocharger" once changes fuel_consumption, although fuel consumption
is not a metric listed for the turbocharger effect (power and
volumetric efficiency are); and applying "direct_injection" once does
not multiply fuel_consumption by its documented factor 0.9.  The
abstract thermal parameter is instantiated with 2.  Both refute the
claim that only the listed metrics change and by exactly the
documented factors. -/
theorem c3_counterexample :
    (apply_upgrade 2 "turbocharger" (initialEngine 2)).1.fuel_consumption ≠
        (initialEngine 2).fuel_consumption ∧
      (apply_upgrade 2 "direct_injection" (initialEngine 2)).1.fuel_consumption ≠
        0.9 * (initialEngine 2).fuel_consumption := by
  have hpos : 0 < fuelOf 2 baseEngine := by
    norm_num [fuelOf, powerPre, pMult, thermalPre, tMult, calculate_thermal_efficiency,
      baseEngine, allOff, PIq]
  have hfe : (initialEngine 2).fuel_consumption = fuelOf 2 baseEngine := by
    simp [initialEngine, update_vehicle_speed, up_fuel]
  have hT : (apply_upgrade 2 "turbocharger" (initialEngine 2)).1.fuel_consumption =
      1.2 * fuelOf 2 baseEngine := by
    unfold apply_upgrade
    rw [if_pos (show ("turbocharger" : String) ∈ knownUpgradeNames from by decide)]
    dsimp only
    rw [up_fuel, init_upgrades]
    rw [show setFlagU "turbocharger" allOff = { allOff with turbocharger := true } from by decide]
    simp only [fuelOf, powerPre, pMult, thermalPre, tMult, calculate_thermal_efficiency]
    simp [-mul_ite, -ite_mul, init_mep, init_bore, init_stroke, init_cyl, init_rpm,
      allOff, baseEngine]
    ring
  have hD : (apply_upgrade 2 "direct_injection" (initialEngine 2)).1.fuel_consumption =
      fuelOf 2 baseEngine / 1.05 := by
    unfold apply_upgrade
    rw [if_pos (show ("direct_injection" : String) ∈ knownUpgradeNames from by decide)]
    dsimp only
    rw [up_fuel, init_upgrades]
    rw [show setFlagU "direct_injection" allOff = { allOff with direct_injection := true } from
      by decide]
    simp only [fuelOf, powerPre, pMult, thermalPre, tMult, calculate_thermal_efficiency]
    simp [-mul_ite, -ite_mul, init_mep, init_bore, init_stroke, init_cyl, init_rpm,
      allOff, baseEngine]
    ring
  constructor
  · rw [hT, hfe]
    intro h
    linarith
  · rw [hD, hfe]
    intro h
    rw [div_eq_iff (by norm_num : (1.05 : ℚ) ≠ 0)] at h
    linarith

/-- Witness for C3 (amended): on the fresh engine the turbocharger
multiplies power by exactly 1.2 and, with both temperature deviations
inside the threshold, ceramic_coating multiplies thermal efficiency by
exactly 1.03. -/
theorem c3_amended_witness :
    (update_performance 2 (withTurbo true baseEngine)).power_output =
        1.2 * (update_performance 2 (withTurbo false baseEngine)).power_output ∧
      (update_performance 2 (withCeramic true baseEngine)).thermal_efficiency =
        1.03 * (update_performance 2 (withCeramic false baseEngine)).thermal_efficiency := by
  have H := c3_amended 2 baseEngine
  exact ⟨H.2.2.2.1.1,
    H.2.2.2.2.2.2.2.2.2.2.2.2.2.1 (by norm_num [baseEngine]) (by norm_num [baseEngine, abs_le])⟩

end SixStroke
